import Mathlib

/-!
Verification of the `time-fmt` specifier grammar engine against its source.

The development shallowly embeds the Rust sources:
  * `src/format/spec_parser.rs`  (render-side dispatcher and composite specifiers),
  * `src/format.rs`              (render collector),
  * `src/parse/desc_parser.rs`   (parse-side dispatcher and composite specifiers),
  * `src/parse.rs`               (parse collector and finalization),
  * `src/parse/time_format_item.rs` (compiler to a reusable format program),
  * `src/util.rs`                (fixed name tables).

Text is modelled at the character level (`Str := List Char`); the Rust code
walks UTF-8 byte slices but only ever splits at ASCII bytes or char
boundaries, so the character-level view agrees with it on all positions the
code can take (error payloads carry the offending `Char` where Rust carries
its first byte).  The external calendar capability (the `time` crate) is
modelled by proleptic-Gregorian arithmetic with the crate's documented
validity checks.
-/

/-- Text as a list of characters. -/
abbrev Str := List Char

/-- Convert a Lean string literal to `Str`. -/
def str (s : String) : Str := s.data

deriving instance DecidableEq for Except

/-- Rust `char::is_whitespace`: the Unicode `White_Space` property. -/
def rustIsWhitespace (c : Char) : Bool :=
  (0x9 ≤ c.toNat && c.toNat ≤ 0xd) || c.toNat = 0x20 || c.toNat = 0x85 ||
  c.toNat = 0xa0 || c.toNat = 0x1680 ||
  (0x2000 ≤ c.toNat && c.toNat ≤ 0x200a) ||
  c.toNat = 0x2028 || c.toNat = 0x2029 || c.toNat = 0x202f ||
  c.toNat = 0x205f || c.toNat = 0x3000

/-- ASCII lower-casing of one character (Rust `u8::to_ascii_lowercase`). -/
def toLowerAscii (c : Char) : Char :=
  if 'A' ≤ c && c ≤ 'Z' then Char.ofNat (c.toNat + 32) else c

/-- Rust `eq_ignore_ascii_case` on equal-length texts. -/
def eqIgnoreAsciiCase : Str → Str → Bool
  | [], [] => true
  | a :: as', b :: bs' => toLowerAscii a = toLowerAscii b && eqIgnoreAsciiCase as' bs'
  | _, _ => false

/-- The ASCII digit character of `d` (meaningful for `d ≤ 9`). -/
def digitChar (d : Nat) : Char := Char.ofNat (48 + d)

/-- Big-endian decimal digits of `n` (empty for 0); `fuel ≥ n` suffices. -/
def natDigitsAux : Nat → Nat → List Nat
  | 0, _ => []
  | fuel + 1, n => if n = 0 then [] else natDigitsAux fuel (n / 10) ++ [n % 10]

/-- Decimal text of a natural number (Rust `to_string` / `{}` formatting). -/
def natRepr (n : Nat) : Str :=
  if n = 0 then ['0'] else (natDigitsAux n n).map digitChar

/-- Decimal text of an integer. -/
def intRepr (i : Int) : Str :=
  if i < 0 then '-' :: natRepr i.natAbs else natRepr i.natAbs

/-- Left-pad `s` with `fill` up to width `w` (no-op when already wide enough). -/
def padLeft (fill : Char) (w : Nat) (s : Str) : Str :=
  List.replicate (w - s.length) fill ++ s

/-- Rust `{:0w$}` on an unsigned value. -/
def padNatZero (w : Nat) (n : Nat) : Str := padLeft '0' w (natRepr n)

/-- Rust `{:w$}` (space padding) on an unsigned value. -/
def padNatSpace (w : Nat) (n : Nat) : Str := padLeft ' ' w (natRepr n)

/-- Rust `{:0w$}` on a signed value: zero padding goes after the sign. -/
def padIntZero (w : Nat) (i : Int) : Str :=
  if i < 0 then '-' :: padLeft '0' (w - 1) (natRepr i.natAbs)
  else padLeft '0' w (natRepr i.natAbs)

/-- Rust `{:w$}` (space padding) on a signed value: padding before the sign. -/
def padIntSpace (w : Nat) (i : Int) : Str := padLeft ' ' w (intRepr i)

/-! ## The external calendar capability (the `time` crate) -/

/-- Proleptic-Gregorian leap-year test. -/
def isLeapYear (y : Int) : Bool :=
  y % 4 = 0 && (y % 100 ≠ 0 || y % 400 = 0)

/-- Number of days of year `y`. -/
def daysInYear (y : Int) : Nat := if isLeapYear y then 366 else 365

/-- Lengths of the twelve months of year `y`. -/
def monthLengths (y : Int) : List Nat :=
  [31, if isLeapYear y then 29 else 28, 31, 30, 31, 30, 31, 31, 30, 31, 30, 31]

/-- Days of year `y` in months strictly before month `m` (1-based). -/
def daysBeforeMonth (y : Int) (m : Nat) : Nat :=
  ((monthLengths y).take (m - 1)).foldl (· + ·) 0

/-- Number of days of month `m` (1-based) of year `y`. -/
def daysInMonth (y : Int) (m : Nat) : Nat := (monthLengths y).getD (m - 1) 0

/-- `time::Date`: a year and a 1-based ordinal day, as the crate stores it. -/
structure Date where
  year : Int
  ordinal : Nat
deriving DecidableEq, Repr

/-- `time::Date::from_ordinal_date`: validity-checked construction. -/
def Date.fromOrdinalDate (y : Int) (o : Nat) : Except String Date :=
  if y < -9999 || 9999 < y then .error "year"
  else if 1 ≤ o && o ≤ daysInYear y then .ok ⟨y, o⟩
  else .error "ordinal"

/-- `time::Date::from_calendar_date` (the month argument is already in 1..12). -/
def Date.fromCalendarDate (y : Int) (m : Nat) (d : Nat) : Except String Date :=
  if y < -9999 || 9999 < y then .error "year"
  else if 1 ≤ d && d ≤ daysInMonth y m then .ok ⟨y, daysBeforeMonth y m + d⟩
  else .error "day"

/-- Resolve an ordinal day to (month, day-of-month). -/
def monthdayAux : List Nat → Nat → Nat → Nat × Nat
  | [], m, o => (m, o)
  | len :: rest, m, o => if o ≤ len then (m, o) else monthdayAux rest (m + 1) (o - len)

/-- `time::Date::month` as a 1-based number. -/
def Date.month (dt : Date) : Nat := (monthdayAux (monthLengths dt.year) 1 dt.ordinal).1

/-- `time::Date::day`. -/
def Date.day (dt : Date) : Nat := (monthdayAux (monthLengths dt.year) 1 dt.ordinal).2

/-- Days from the proleptic-Gregorian epoch to the start of year `y`
(day 1 of year 1 is day number 1). -/
def daysBeforeYear (y : Int) : Int :=
  365 * (y - 1) + Int.fdiv (y - 1) 4 - Int.fdiv (y - 1) 100 + Int.fdiv (y - 1) 400

/-- Weekday of a date, 0 = Monday .. 6 = Sunday (`time::Weekday as u8`). -/
def Date.weekdayIdx (dt : Date) : Nat :=
  ((daysBeforeYear dt.year + dt.ordinal - 1) % 7).toNat

/-- `Weekday::number_from_monday` (1..7). -/
def Date.numberFromMonday (dt : Date) : Nat := dt.weekdayIdx + 1

/-- `Weekday::number_days_from_sunday` (0..6). -/
def Date.numberDaysFromSunday (dt : Date) : Nat := (dt.weekdayIdx + 1) % 7

/-- `Weekday::number_days_from_monday` (0..6). -/
def Date.numberDaysFromMonday (dt : Date) : Nat := dt.weekdayIdx

/-- Number of ISO 8601 weeks of year `y` (52 or 53). -/
def isoWeeksInYear (y : Int) : Nat :=
  let jan1 : Date := ⟨y, 1⟩
  if jan1.weekdayIdx = 3 || (isLeapYear y && jan1.weekdayIdx = 2) then 53 else 52

/-- `time::Date::to_iso_week_date` restricted to (week-based year, week). -/
def Date.isoYearWeek (dt : Date) : Int × Nat :=
  let w : Nat := (10 + dt.ordinal - dt.numberFromMonday) / 7
  if w = 0 then (dt.year - 1, isoWeeksInYear (dt.year - 1))
  else if w = 53 && isoWeeksInYear dt.year = 52 then (dt.year + 1, 1)
  else (dt.year, w)

/-- `time::Date::sunday_based_week`. -/
def Date.sundayBasedWeek (dt : Date) : Nat :=
  (dt.ordinal + 6 - dt.numberDaysFromSunday) / 7

/-- `time::Date::monday_based_week`. -/
def Date.mondayBasedWeek (dt : Date) : Nat :=
  (dt.ordinal + 6 - dt.numberDaysFromMonday) / 7

/-- `time::Time`. -/
structure Time where
  hour : Nat
  minute : Nat
  second : Nat
  nanosecond : Nat
deriving DecidableEq, Repr

/-- `time::Time::from_hms_nano`: validity-checked construction (seconds 0..=59). -/
def Time.fromHmsNano (h m s ns : Nat) : Except String Time :=
  if 24 ≤ h then .error "hour"
  else if 60 ≤ m then .error "minute"
  else if 60 ≤ s then .error "second"
  else if 1000000000 ≤ ns then .error "nanosecond"
  else .ok ⟨h, m, s, ns⟩

/-- `time::UtcOffset`: whole hours and minutes, all components sharing a sign. -/
structure Offset where
  hours : Int
  minutes : Int
deriving DecidableEq, Repr

/-- `time::UtcOffset::from_hms` with zero seconds (range-checked). -/
def Offset.fromHms (h m : Int) : Except String Offset :=
  if h.natAbs ≤ 25 && m.natAbs ≤ 59 then .ok ⟨h, m⟩ else .error "hours"

/-- `time::UtcOffset::UTC`. -/
def Offset.utc : Offset := ⟨0, 0⟩

/-- `time::UtcOffset::is_negative`. -/
def Offset.isNegative (o : Offset) : Bool := o.hours < 0 || o.minutes < 0

/-- `time::PrimitiveDateTime`. -/
structure PrimDateTime where
  date : Date
  time : Time
deriving DecidableEq, Repr

/-! ## `src/util.rs`: the fixed name tables (POSIX locale) -/

/-- `MONTH_LONG[m-1]` for month number `m` in 1..12. -/
def monthLongStr (m : Nat) : Str :=
  (List.map str
    ["January", "February", "March", "April", "May", "June", "July",
     "August", "September", "October", "November", "December"]).getD (m - 1) []

/-- `MONTH_SHORT[m-1]`. -/
def monthShortStr (m : Nat) : Str :=
  (List.map str
    ["Jan", "Feb", "Mar", "Apr", "May", "Jun", "Jul", "Aug", "Sep", "Oct",
     "Nov", "Dec"]).getD (m - 1) []

/-- `WEEKDAY_LONG[w]` for weekday index `w` (0 = Monday). -/
def weekdayLongStr (w : Nat) : Str :=
  (List.map str
    ["Monday", "Tuesday", "Wednesday", "Thursday", "Friday", "Saturday",
     "Sunday"]).getD w []

/-- `WEEKDAY_SHORT[w]`. -/
def weekdayShortStr (w : Nat) : Str :=
  (List.map str ["Mon", "Tue", "Wed", "Thu", "Fri", "Sat", "Sun"]).getD w []

/-- `ampm_upper`. -/
def ampmUpper (hour : Nat) : Str := if hour < 12 then str "AM" else str "PM"

/-- `ampm_lower`. -/
def ampmLower (hour : Nat) : Str := if hour < 12 then str "am" else str "pm"

/-- `Month::next` on month numbers. -/
def monthNext (m : Nat) : Nat := m % 12 + 1

/-- `get_month`: month number to month, `none` outside 1..12. -/
def getMonth (m : Nat) : Option Nat :=
  if 1 ≤ m && m ≤ 12 then some m else none

/-! ## `src/parse.rs`: the recover collector -/

/-- `ParseError` of `src/parse.rs`; `componentRange` stands for a propagated
`time::error::ComponentRange`, carrying the offending component's name. -/
inductive ParseError
  | unknownSpecifier (c : Char)
  | unexpectedByte (field : String) (b : Char)
  | unexpectedEnd (field : String)
  | notMatch (field : String)
  | componentOutOfRange (field : String)
  | unconvertedDataRemains (s : Str)
  | componentRange (field : String)
deriving DecidableEq, Repr

/-- `ParsingYear`. -/
inductive ParsingYear
  | unspecified
  | year (y : Int)
  | prefixSuffix (p : Int) (s : Nat)
deriving DecidableEq, Repr

/-- `ParsingDayOfYear` (months are 1-based numbers). -/
inductive ParsingDayOfYear
  | unspecified
  | monthDay (month : Nat) (day : Nat)
  | dayOfYear (ordinal : Nat)
deriving DecidableEq, Repr

/-- `ParsingHour`. -/
inductive ParsingHour
  | unspecified
  | fullDay (h : Nat)
  | halfDay (h : Nat) (pm : Bool)
deriving DecidableEq, Repr

/-- `TimeZoneSpecifier`. -/
inductive TimeZoneSpecifier
  | offset (o : Offset)
  | name (s : Str)
deriving DecidableEq, Repr

/-- `ParseCollector`: the remaining input and the ambiguity accumulator. -/
structure ParseState where
  s : Str
  year : ParsingYear
  day : ParsingDayOfYear
  hour : ParsingHour
  minute : Nat
  second : Nat
  nanosecond : Nat
  zone : Option TimeZoneSpecifier
deriving DecidableEq, Repr

/-- `ParseCollector::new`. -/
def ParseState.new (s : Str) : ParseState :=
  ⟨s, .unspecified, .unspecified, .unspecified, 0, 0, 0, none⟩

/-- `skip_whitespaces` (`str::trim_start`). -/
def ParseState.skipWhitespaces (st : ParseState) : ParseState :=
  { st with s := st.s.dropWhile rustIsWhitespace }

/-- `get_until_whitespace`: split at the first whitespace character. -/
def ParseState.getUntilWhitespace (st : ParseState) : Str × ParseState :=
  let pos := st.s.findIdx rustIsWhitespace
  (st.s.take pos, { st with s := st.s.drop pos })

/-- `peek_byte`. -/
def ParseState.peekByte (st : ParseState) : Option Char := st.s.head?

/-- Loop body of `parse_nat`: scan the first `max_len` characters, stopping at
the first non-digit (an error if fewer than `min_len` were read). Returns the
accumulated value and the number of characters read. -/
def parseNatAux (minLen : Nat) : Str → Nat → Nat → Except ParseError (Nat × Nat)
  | [], res, read => .ok (res, read)
  | c :: rest, res, read =>
    if '0' ≤ c && c ≤ '9' then
      parseNatAux minLen rest (res * 10 + (c.toNat - 48)) (read + 1)
    else if read < minLen then .error (.unexpectedByte "digits" c)
    else .ok (res, read)

/-- `parse_nat`. -/
def ParseState.parseNat (st : ParseState) (minLen maxLen : Nat) :
    Except ParseError (Nat × ParseState) :=
  if st.s.length < minLen then .error (.unexpectedEnd "digits")
  else
    match parseNatAux minLen (st.s.take (min maxLen st.s.length)) 0 0 with
    | .error e => .error e
    | .ok (res, read) => .ok (res, { st with s := st.s.drop read })

/-- Loop body of `parse_int`: like `parseNatAux` but a leading `+`/`-` is
allowed (and counted as a read byte). -/
def parseIntAux : Str → Int → Nat → Bool → Bool → Except ParseError (Int × Nat × Bool)
  | [], res, read, negate, _ => .ok (res, read, negate)
  | c :: rest, res, read, negate, hadDigit =>
    if '0' ≤ c && c ≤ '9' then
      parseIntAux rest (res * 10 + (c.toNat - 48)) (read + 1) negate true
    else if read = 0 then
      if c = '+' then parseIntAux rest res (read + 1) negate hadDigit
      else if c = '-' then parseIntAux rest res (read + 1) true hadDigit
      else .error (.unexpectedByte "digits or sign" c)
    else if hadDigit then .ok (res, read, negate)
    else .error (.unexpectedByte "digits" c)

/-- `parse_int`. -/
def ParseState.parseInt (st : ParseState) (maxLen : Nat) :
    Except ParseError (Int × ParseState) :=
  if st.s.isEmpty then .error (.unexpectedEnd "digits")
  else
    match parseIntAux (st.s.take (min maxLen st.s.length)) 0 0 false false with
    | .error e => .error e
    | .ok (res, read, negate) =>
      .ok (if negate then -res else res, { st with s := st.s.drop read })

/-- `starts_with_ignore_ascii_case`. -/
def ParseState.startsWithIgnoreAsciiCase (st : ParseState) (p : Str) : Bool :=
  decide (p.length ≤ st.s.length) && eqIgnoreAsciiCase (st.s.take p.length) p

/-- Collector method `spaces`. -/
def ParseState.spaces (st : ParseState) : Except ParseError ParseState :=
  .ok st.skipWhitespaces

/-- Loop of `day_of_week_name` over the seven weekdays starting at Monday:
match long before short, consume the name, leave the accumulator unchanged. -/
def dayOfWeekNameLoop : List Nat → ParseState → Except ParseError ParseState
  | [], _ => .error (.notMatch "day of week name")
  | w :: rest, st =>
    let short := weekdayShortStr w
    if st.startsWithIgnoreAsciiCase short then
      let long := weekdayLongStr w
      if st.startsWithIgnoreAsciiCase long then
        .ok { st with s := st.s.drop long.length }
      else
        .ok { st with s := st.s.drop short.length }
    else dayOfWeekNameLoop rest st

/-- Collector method `day_of_week_name` (`%a`, `%A`). -/
def ParseState.day_of_week_name (st : ParseState) : Except ParseError ParseState :=
  dayOfWeekNameLoop [0, 1, 2, 3, 4, 5, 6] st

/-- Update of the day accumulator by a parsed month (day-of-year dominates). -/
def setMonth (d : ParsingDayOfYear) (month : Nat) : ParsingDayOfYear :=
  match d with
  | .unspecified => .monthDay month 1
  | .monthDay _ cur => .monthDay month cur
  | .dayOfYear o => .dayOfYear o

/-- Loop of `month_name` over the twelve months starting at January. -/
def monthNameLoop : List Nat → ParseState → Except ParseError ParseState
  | [], _ => .error (.notMatch "month name")
  | m :: rest, st =>
    let short := monthShortStr m
    if st.startsWithIgnoreAsciiCase short then
      let long := monthLongStr m
      if st.startsWithIgnoreAsciiCase long then
        .ok { st with s := st.s.drop long.length, day := setMonth st.day m }
      else
        .ok { st with s := st.s.drop short.length, day := setMonth st.day m }
    else monthNameLoop rest st

/-- Collector method `month_name` (`%b`, `%B`, `%h`). -/
def ParseState.month_name (st : ParseState) : Except ParseError ParseState :=
  monthNameLoop [1, 2, 3, 4, 5, 6, 7, 8, 9, 10, 11, 12] st

/-- Collector method `year_prefix` (`%C`): a signed 2-byte century; an
explicit year dominates, otherwise the century part is overwritten. -/
def ParseState.year_prefix (st : ParseState) : Except ParseError ParseState :=
  match st.parseInt 2 with
  | .error e => .error e
  | .ok (p, st) =>
    .ok { st with year := match st.year with
      | .unspecified => ParsingYear.prefixSuffix p 0
      | .year y => .year y
      | .prefixSuffix _ s => .prefixSuffix p s }

/-- Collector method `day_of_month` (`%d`, `%e`). -/
def ParseState.day_of_month (st : ParseState) : Except ParseError ParseState :=
  match st.parseNat 1 2 with
  | .error e => .error e
  | .ok (day, st) =>
    if 1 ≤ day && day ≤ 31 then
      .ok { st with day := match st.day with
        | .unspecified => ParsingDayOfYear.monthDay 1 day
        | .monthDay m _ => .monthDay m day
        | .dayOfYear o => .dayOfYear o }
    else .error (.componentOutOfRange "day-of-month")

/-- Collector method `hour_of_day` (`%H`, `%k`). -/
def ParseState.hour_of_day (st : ParseState) : Except ParseError ParseState :=
  match st.parseNat 1 2 with
  | .error e => .error e
  | .ok (hour, st) =>
    if hour < 24 then
      .ok { st with hour := match st.hour with
        | .unspecified => ParsingHour.fullDay hour
        | .fullDay _ => .fullDay hour
        | .halfDay h pm => .halfDay h pm }
    else .error (.componentOutOfRange "hour-of-day")

/-- Collector method `hour_of_day_12` (`%I`, `%l`): stores `hour % 12`. -/
def ParseState.hour_of_day_12 (st : ParseState) : Except ParseError ParseState :=
  match st.parseNat 1 2 with
  | .error e => .error e
  | .ok (hour, st) =>
    if 1 ≤ hour && hour ≤ 12 then
      .ok { st with hour := match st.hour with
        | .unspecified => ParsingHour.halfDay (hour % 12) false
        | .fullDay h => .fullDay h
        | .halfDay _ pm => .halfDay (hour % 12) pm }
    else .error (.componentOutOfRange "hour-of-half-day")

/-- Collector method `day_of_year` (`%j`): always overwrites the day field. -/
def ParseState.day_of_year (st : ParseState) : Except ParseError ParseState :=
  match st.parseNat 1 3 with
  | .error e => .error e
  | .ok (day, st) =>
    if 1 ≤ day && day ≤ 366 then .ok { st with day := .dayOfYear day }
    else .error (.componentOutOfRange "day-of-year")

/-- Collector method `month_of_year` (`%m`). -/
def ParseState.month_of_year (st : ParseState) : Except ParseError ParseState :=
  match st.parseNat 1 2 with
  | .error e => .error e
  | .ok (month, st) =>
    if 1 ≤ month && month ≤ 12 then
      .ok { st with day := setMonth st.day ((getMonth month).getD 1) }
    else .error (.componentOutOfRange "month")

/-- Collector method `minute_of_hour` (`%M`). -/
def ParseState.minute_of_hour (st : ParseState) : Except ParseError ParseState :=
  match st.parseNat 1 2 with
  | .error e => .error e
  | .ok (minute, st) =>
    if minute < 60 then .ok { st with minute := minute }
    else .error (.componentOutOfRange "munute")

/-- Loop of `ampm` over the two half-day hours 0 and 12. -/
def ampmLoop : List Nat → ParseState → Except ParseError ParseState
  | [], _ => .error (.notMatch "am/pm")
  | h :: rest, st =>
    if st.startsWithIgnoreAsciiCase (ampmLower h) then
      let hr := match st.hour with
        | .unspecified => ParsingHour.halfDay 0 (h ≠ 0)
        | .fullDay h' => .fullDay h'
        | .halfDay cur _ => .halfDay cur (h ≠ 0)
      .ok { st with s := st.s.drop 2, hour := hr }
    else ampmLoop rest st

/-- Collector method `ampm` (`%p`, `%P`). -/
def ParseState.ampm (st : ParseState) : Except ParseError ParseState :=
  ampmLoop [0, 12] st

/-- Collector method `second_of_minute` (`%S`, leap second 60 allowed). -/
def ParseState.second_of_minute (st : ParseState) : Except ParseError ParseState :=
  match st.parseNat 1 2 with
  | .error e => .error e
  | .ok (second, st) =>
    if second < 61 then .ok { st with second := second }
    else .error (.componentOutOfRange "second")

/-- `SCALE` table of `nanosecond_of_second`. -/
def nanoScale : List Nat :=
  [0, 100000000, 10000000, 1000000, 100000, 10000, 1000, 100, 10, 1]

/-- Collector method `nanosecond_of_second` (`%f`): scale by digits consumed.
(The parse-side trait declares this method as `nanosecond_of_minute`;
`src/parse.rs` implements it under this name.) -/
def ParseState.nanosecond_of_second (st : ParseState) : Except ParseError ParseState :=
  match st.parseNat 1 9 with
  | .error e => .error e
  | .ok (nanosecond, st') =>
    .ok { st' with
      nanosecond := nanosecond * nanoScale.getD (st.s.length - st'.s.length) 0 }

/-- Collector method `week_number_of_current_year_start_sunday` (`%U`):
range-checked and ignored. -/
def ParseState.week_number_of_current_year_start_sunday (st : ParseState) :
    Except ParseError ParseState :=
  match st.parseNat 1 2 with
  | .error e => .error e
  | .ok (w, st) =>
    if w ≤ 53 then .ok st else .error (.componentOutOfRange "week-number")

/-- Collector method `day_of_week_from_sunday_as_0` (`%w`): range-checked and
ignored. -/
def ParseState.day_of_week_from_sunday_as_0 (st : ParseState) :
    Except ParseError ParseState :=
  match st.parseNat 1 1 with
  | .error e => .error e
  | .ok (w, st) =>
    if w < 7 then .ok st else .error (.componentOutOfRange "day-of-week")

/-- Collector method `week_number_of_current_year_start_monday` (`%W`). -/
def ParseState.week_number_of_current_year_start_monday (st : ParseState) :
    Except ParseError ParseState :=
  match st.parseNat 1 2 with
  | .error e => .error e
  | .ok (w, st) =>
    if w ≤ 53 then .ok st else .error (.componentOutOfRange "week-number")

/-- Collector method `year_suffix` (`%y`): POSIX pivot 69 when the year is
still unspecified; an explicit year dominates; otherwise the suffix part is
overwritten. -/
def ParseState.year_suffix (st : ParseState) : Except ParseError ParseState :=
  match st.parseNat 1 2 with
  | .error e => .error e
  | .ok (y, st) =>
    if y < 100 then
      .ok { st with year := match st.year with
        | .unspecified => ParsingYear.prefixSuffix (if y < 69 then 20 else 19) y
        | .year y' => .year y'
        | .prefixSuffix p _ => .prefixSuffix p y }
    else .error (.componentOutOfRange "year-suffix")

/-- Collector method `year` (`%Y`): always overwrites the year field. -/
def ParseState.year_m (st : ParseState) : Except ParseError ParseState :=
  match st.parseInt 4 with
  | .error e => .error e
  | .ok (y, st) => .ok { st with year := .year y }

/-- Tail of `timezone` after the sign was consumed: exactly two digits, an
optional `:`, exactly two digits.  (The Rust `u8 → i8` conversions cannot
fail here since two digits are at most 99.) -/
def ParseState.timezoneAfterSign (st : ParseState) (negate : Bool) :
    Except ParseError ParseState :=
  match st.parseNat 2 2 with
  | .error e => .error e
  | .ok (h, st) =>
    let st := if st.peekByte = some ':' then { st with s := st.s.drop 1 } else st
    match st.parseNat 2 2 with
    | .error e => .error e
    | .ok (m, st) =>
      let hm : Int × Int := if negate then (-(h : Int), -(m : Int)) else (h, m)
      match Offset.fromHms hm.1 hm.2 with
      | .ok o => .ok { st with zone := some (.offset o) }
      | .error e => .error (.componentRange e)

/-- Collector method `timezone` (`%z`): literal `Z`, or sign, exactly two
digits, an optional `:`, exactly two digits. -/
def ParseState.timezone (st : ParseState) : Except ParseError ParseState :=
  match st.peekByte with
  | some c =>
    if c = 'Z' then
      .ok { st with s := st.s.drop 1, zone := some (.offset Offset.utc) }
    else if c = '+' || c = '-' then
      ParseState.timezoneAfterSign { st with s := st.s.drop 1 } (c = '-')
    else .error (.unexpectedByte "+ or -" c)
  | none => .error (.unexpectedEnd "+ or -")

/-- Collector method `timezone_name` (`%Z`): take the run up to whitespace. -/
def ParseState.timezone_name (st : ParseState) : Except ParseError ParseState :=
  let (name, st) := st.getUntilWhitespace
  .ok { st with zone := some (.name name) }

/-- Collector method `static_str`. -/
def ParseState.static_str (lit : Str) (st : ParseState) : Except ParseError ParseState :=
  if st.s.take lit.length = lit then .ok { st with s := st.s.drop lit.length }
  else .error (.notMatch (String.mk lit))

/-- Collector method `literal`. -/
def ParseState.literalM (lit : Str) (st : ParseState) : Except ParseError ParseState :=
  if st.s.take lit.length = lit then .ok { st with s := st.s.drop lit.length }
  else .error (.notMatch "string literal")

/-- Collector method `unknown`. -/
def ParseState.unknown (c : Char) (_ : ParseState) : Except ParseError ParseState :=
  .error (.unknownSpecifier c)

/-- Collector method `unconsumed_input`: fails when input remains. -/
def ParseState.unconsumed_input (st : ParseState) : Except ParseError Unit :=
  if st.s.length > 0 then .error (.unconvertedDataRemains st.s) else .ok ()

/-- Bounds of Rust's `i32`, for the checked century arithmetic. -/
def i32Min : Int := -2147483648

/-- Upper bound of Rust's `i32`. -/
def i32Max : Int := 2147483647

/-- Year resolution of `output`: default 1900, explicit year, or checked
`century * 100 + suffix`. -/
def resolveYear : ParsingYear → Except ParseError Int
  | .unspecified => .ok 1900
  | .year y => .ok y
  | .prefixSuffix p s =>
    if i32Min ≤ p * 100 && p * 100 ≤ i32Max &&
        i32Min ≤ p * 100 + s && p * 100 + s ≤ i32Max then
      .ok (p * 100 + s)
    else .error (.componentOutOfRange "year")

/-- Date resolution of `output`: default ordinal day 1. -/
def resolveDate (year : Int) : ParsingDayOfYear → Except ParseError Date
  | .unspecified => (Date.fromOrdinalDate year 1).mapError .componentRange
  | .monthDay month day => (Date.fromCalendarDate year month day).mapError .componentRange
  | .dayOfYear day => (Date.fromOrdinalDate year day).mapError .componentRange

/-- Hour resolution of `output`: default 0; PM contributes 12. -/
def resolveHour : ParsingHour → Nat
  | .unspecified => 0
  | .fullDay h => h
  | .halfDay h pm => if pm then h + 12 else h

/-- Collector method `output`: finalization. -/
def ParseState.output (st : ParseState) :
    Except ParseError (PrimDateTime × Option TimeZoneSpecifier) :=
  match resolveYear st.year with
  | .error e => .error e
  | .ok year =>
    match resolveDate year st.day with
    | .error e => .error e
    | .ok date =>
      match Time.fromHmsNano (resolveHour st.hour) st.minute st.second st.nanosecond with
      | .error e => .error (.componentRange e)
      | .ok time => .ok (⟨date, time⟩, st.zone)

/-! ## `src/parse/desc_parser.rs`: the parse-side dispatcher -/

/-- The parse-side `Collector` trait: one operation per primitive specifier.
`output` is passed separately to the dispatcher (it consumes the collector). -/
structure PCollector (σ ε : Type) where
  spaces : σ → Except ε σ
  day_of_week_name : σ → Except ε σ
  month_name : σ → Except ε σ
  year_prefix : σ → Except ε σ
  day_of_month : σ → Except ε σ
  hour_of_day : σ → Except ε σ
  hour_of_day_12 : σ → Except ε σ
  day_of_year : σ → Except ε σ
  month_of_year : σ → Except ε σ
  minute_of_hour : σ → Except ε σ
  ampm : σ → Except ε σ
  second_of_minute : σ → Except ε σ
  nanosecond_of_minute : σ → Except ε σ
  week_number_of_current_year_start_sunday : σ → Except ε σ
  day_of_week_from_sunday_as_0 : σ → Except ε σ
  week_number_of_current_year_start_monday : σ → Except ε σ
  year_suffix : σ → Except ε σ
  year : σ → Except ε σ
  timezone : σ → Except ε σ
  timezone_name : σ → Except ε σ
  static_str : Str → σ → Except ε σ
  literal : Str → σ → Except ε σ
  unknown : Char → σ → Except ε σ
  unconsumed_input : σ → Except ε Unit

/-- Default method `time_of_day` (`%T`): `%H : %M : %S`. -/
def PCollector.time_of_day (C : PCollector σ ε) (st : σ) : Except ε σ := do
  let st ← C.hour_of_day st
  let st ← C.spaces st
  let st ← C.static_str (str ":") st
  let st ← C.spaces st
  let st ← C.minute_of_hour st
  let st ← C.spaces st
  let st ← C.static_str (str ":") st
  let st ← C.spaces st
  C.second_of_minute st

/-- Default method `preferred_date_time` (`%c`): `%a %b %e %T %Y`. -/
def PCollector.preferred_date_time (C : PCollector σ ε) (st : σ) : Except ε σ := do
  let st ← C.day_of_week_name st
  let st ← C.spaces st
  let st ← C.month_name st
  let st ← C.spaces st
  let st ← C.day_of_month st
  let st ← C.spaces st
  let st ← PCollector.time_of_day C st
  let st ← C.spaces st
  C.year st

/-- Default method `date_mmddyy_slash` (`%D`): `%m / %d / %y`. -/
def PCollector.date_mmddyy_slash (C : PCollector σ ε) (st : σ) : Except ε σ := do
  let st ← C.month_of_year st
  let st ← C.spaces st
  let st ← C.static_str (str "/") st
  let st ← C.spaces st
  let st ← C.day_of_month st
  let st ← C.spaces st
  let st ← C.static_str (str "/") st
  let st ← C.spaces st
  C.year_suffix st

/-- Default method `date_yyyymmdd_hyphen` (`%F`): `%Y-%m-%d`. -/
def PCollector.date_yyyymmdd_hyphen (C : PCollector σ ε) (st : σ) : Except ε σ := do
  let st ← C.year st
  let st ← C.static_str (str "-") st
  let st ← C.month_of_year st
  let st ← C.static_str (str "-") st
  C.day_of_month st

/-- Default method `new_line` (`%n`). -/
def PCollector.new_line (C : PCollector σ ε) (st : σ) : Except ε σ := C.spaces st

/-- Default method `time_ampm` (`%r`): `%I : %M : %S %p`. -/
def PCollector.time_ampm (C : PCollector σ ε) (st : σ) : Except ε σ := do
  let st ← C.hour_of_day_12 st
  let st ← C.spaces st
  let st ← C.static_str (str ":") st
  let st ← C.spaces st
  let st ← C.minute_of_hour st
  let st ← C.spaces st
  let st ← C.static_str (str ":") st
  let st ← C.spaces st
  let st ← C.second_of_minute st
  let st ← C.spaces st
  C.ampm st

/-- Default method `hour_minute_of_day` (`%R`): `%H : %M`. -/
def PCollector.hour_minute_of_day (C : PCollector σ ε) (st : σ) : Except ε σ := do
  let st ← C.hour_of_day st
  let st ← C.spaces st
  let st ← C.static_str (str ":") st
  let st ← C.spaces st
  C.minute_of_hour st

/-- Default method `tab` (`%t`). -/
def PCollector.tab (C : PCollector σ ε) (st : σ) : Except ε σ := C.spaces st

/-- Default method `preferred_date` (`%x`): `%m/%d/%y`. -/
def PCollector.preferred_date (C : PCollector σ ε) (st : σ) : Except ε σ := do
  let st ← C.month_of_year st
  let st ← C.static_str (str "/") st
  let st ← C.day_of_month st
  let st ← C.static_str (str "/") st
  C.year_suffix st

/-- Default method `preferred_time_of_day` (`%X`): `%H:%M:%S`. -/
def PCollector.preferred_time_of_day (C : PCollector σ ε) (st : σ) : Except ε σ := do
  let st ← C.hour_of_day st
  let st ← C.static_str (str ":") st
  let st ← C.minute_of_hour st
  let st ← C.static_str (str ":") st
  C.second_of_minute st

/-- Default method `percent` (`%%`). -/
def PCollector.percent (C : PCollector σ ε) (st : σ) : Except ε σ :=
  C.static_str (str "%") st

/-- One specifier dispatch of the parse-side walk (`match b { ... }`). -/
def pdispatch (C : PCollector σ ε) (b : Char) (st : σ) : Except ε σ :=
  if b = 'a' || b = 'A' then C.day_of_week_name st
  else if b = 'b' || b = 'B' || b = 'h' then C.month_name st
  else if b = 'c' then C.preferred_date_time st
  else if b = 'C' then C.year_prefix st
  else if b = 'd' || b = 'e' then C.day_of_month st
  else if b = 'D' then C.date_mmddyy_slash st
  else if b = 'F' then C.date_yyyymmdd_hyphen st
  else if b = 'H' || b = 'k' then C.hour_of_day st
  else if b = 'I' || b = 'l' then C.hour_of_day_12 st
  else if b = 'j' then C.day_of_year st
  else if b = 'm' then C.month_of_year st
  else if b = 'M' then C.minute_of_hour st
  else if b = 'n' then C.new_line st
  else if b = 'p' || b = 'P' then C.ampm st
  else if b = 'r' then C.time_ampm st
  else if b = 'R' then C.hour_minute_of_day st
  else if b = 'S' then C.second_of_minute st
  else if b = 'f' then C.nanosecond_of_minute st
  else if b = 't' then C.tab st
  else if b = 'T' then PCollector.time_of_day C st
  else if b = 'U' then C.week_number_of_current_year_start_sunday st
  else if b = 'w' then C.day_of_week_from_sunday_as_0 st
  else if b = 'W' then C.week_number_of_current_year_start_monday st
  else if b = 'x' then C.preferred_date st
  else if b = 'X' then C.preferred_time_of_day st
  else if b = 'y' then C.year_suffix st
  else if b = 'Y' then C.year st
  else if b = 'z' then C.timezone st
  else if b = 'Z' then C.timezone_name st
  else if b = '%' then C.percent st
  else C.unknown b st

/-- Whether `b` is one of the recognized parse-side specifier characters. -/
def precognized (b : Char) : Bool :=
  b ∈ ['a', 'A', 'b', 'B', 'h', 'c', 'C', 'd', 'e', 'D', 'F', 'H', 'k', 'I',
       'l', 'j', 'm', 'M', 'n', 'p', 'P', 'r', 'R', 'S', 'f', 't', 'T', 'U',
       'w', 'W', 'x', 'X', 'y', 'Y', 'z', 'Z', '%']

/-- The loop of `parse_format_specifications`, with explicit fuel (each loop
iteration consumes at least one format character, so any `fuel >
format.length` behaves like the Rust loop; the `fuel = 0` case is never
reached from the entry point below). -/
def pwalkF (C : PCollector σ ε) : Nat → Str → σ → Except ε σ
  | 0, _, st => .ok st
  | fuel + 1, fmt, st =>
    match fmt with
    | [] => .ok st
    | c :: rest =>
      let i := (c :: rest).findIdx fun ch => ch = '%' || rustIsWhitespace ch
      if i ≠ 0 then
        match C.literal ((c :: rest).take i) st with
        | .error e => .error e
        | .ok st => pwalkF C fuel ((c :: rest).drop i) st
      else if rustIsWhitespace c then
        match C.spaces st with
        | .error e => .error e
        | .ok st => pwalkF C fuel ((c :: rest).dropWhile rustIsWhitespace) st
      else
        -- c = '%'
        match rest with
        | [] => C.percent st
        | b :: rest' =>
          if precognized b then
            match pdispatch C b st with
            | .error e => .error e
            | .ok st => pwalkF C fuel rest' st
          else
            match C.unknown b st with
            | .error e => .error e
            | .ok st => pwalkF C fuel rest' st

/-- `parse_format_specifications(format, collector, reject_unconsumed_input)`.

Modelled from the spec for the strict-mode threading: the snapshot of
`src/parse/desc_parser.rs` predates the `strict` parameter its callers in
`src/parse.rs` and `src/parse/time_format_item.rs` pass, so the final
`unconsumed_input` check ("a strict finalization mode additionally fails if
any input remains unconsumed after the last specifier") is taken from the
spec; the walk itself and the `unconsumed_input`/`output` bodies are from the
source. -/
def parse_format_specifications (C : PCollector σ ε) (out : σ → Except ε τ)
    (fmt : Str) (st : σ) (strict : Bool) : Except ε τ :=
  match pwalkF C (fmt.length + 1) fmt st with
  | .error e => .error e
  | .ok st =>
    if strict then
      match C.unconsumed_input st with
      | .error e => .error e
      | .ok _ => out st
    else out st

/-- The `ParseCollector` realization of the parse-side trait. -/
def parseCollector : PCollector ParseState ParseError where
  spaces := ParseState.spaces
  day_of_week_name := ParseState.day_of_week_name
  month_name := ParseState.month_name
  year_prefix := ParseState.year_prefix
  day_of_month := ParseState.day_of_month
  hour_of_day := ParseState.hour_of_day
  hour_of_day_12 := ParseState.hour_of_day_12
  day_of_year := ParseState.day_of_year
  month_of_year := ParseState.month_of_year
  minute_of_hour := ParseState.minute_of_hour
  ampm := ParseState.ampm
  second_of_minute := ParseState.second_of_minute
  nanosecond_of_minute := ParseState.nanosecond_of_second
  week_number_of_current_year_start_sunday :=
    ParseState.week_number_of_current_year_start_sunday
  day_of_week_from_sunday_as_0 := ParseState.day_of_week_from_sunday_as_0
  week_number_of_current_year_start_monday :=
    ParseState.week_number_of_current_year_start_monday
  year_suffix := ParseState.year_suffix
  year := ParseState.year_m
  timezone := ParseState.timezone
  timezone_name := ParseState.timezone_name
  static_str := ParseState.static_str
  literal := ParseState.literalM
  unknown := ParseState.unknown
  unconsumed_input := ParseState.unconsumed_input

/-- `parse_date_time_maybe_with_zone`. -/
def parse_date_time_maybe_with_zone (fmt s : Str) :
    Except ParseError (PrimDateTime × Option TimeZoneSpecifier) :=
  parse_format_specifications parseCollector ParseState.output fmt
    (ParseState.new s) false

/-- `parse_strict_date_time_maybe_with_zone`. -/
def parse_strict_date_time_maybe_with_zone (fmt s : Str) :
    Except ParseError (PrimDateTime × Option TimeZoneSpecifier) :=
  parse_format_specifications parseCollector ParseState.output fmt
    (ParseState.new s) true

/-! ## `src/format.rs`: the render collector -/

/-- `FormatError` (writes to a `String` sink cannot fault). -/
inductive FormatError
  | unknownSpecifier (c : Char)
deriving DecidableEq, Repr

/-- `FormatCollector`: the value being rendered and the output sink. -/
structure FmtState where
  date : Date
  time : Time
  offset : Option Offset
  zone_name : Option Str
  out : Str
deriving DecidableEq, Repr

/-- Append text to the output sink (`write_str` / `write_fmt`). -/
def FmtState.wr (st : FmtState) (s : Str) : FmtState :=
  { st with out := st.out ++ s }

/-- Render method `day_of_week_name_short` (`%a`). -/
def FmtState.day_of_week_name_short (st : FmtState) : Except FormatError FmtState :=
  .ok (st.wr (weekdayShortStr st.date.weekdayIdx))

/-- Render method `day_of_week_name_long` (`%A`). -/
def FmtState.day_of_week_name_long (st : FmtState) : Except FormatError FmtState :=
  .ok (st.wr (weekdayLongStr st.date.weekdayIdx))

/-- Render method `month_name_short` (`%b`, `%h`). -/
def FmtState.month_name_short (st : FmtState) : Except FormatError FmtState :=
  .ok (st.wr (monthShortStr st.date.month))

/-- Render method `month_name_long` (`%B`). -/
def FmtState.month_name_long (st : FmtState) : Except FormatError FmtState :=
  .ok (st.wr (monthLongStr st.date.month))

/-- Render method `year_prefix` (`%C`): `{:02}` of `year.div_euclid(100)`. -/
def FmtState.year_prefix (st : FmtState) : Except FormatError FmtState :=
  .ok (st.wr (padIntZero 2 (Int.ediv st.date.year 100)))

/-- Render method `day_of_month` (`%d`). -/
def FmtState.day_of_month (st : FmtState) : Except FormatError FmtState :=
  .ok (st.wr (padNatZero 2 st.date.day))

/-- Render method `day_of_month_blank` (`%e`). -/
def FmtState.day_of_month_blank (st : FmtState) : Except FormatError FmtState :=
  .ok (st.wr (padNatSpace 2 st.date.day))

/-- Render method `iso8601_week_based_year_suffix` (`%g`). -/
def FmtState.iso8601_week_based_year_suffix (st : FmtState) : Except FormatError FmtState :=
  .ok (st.wr (padIntZero 2 (Int.emod st.date.isoYearWeek.1 100)))

/-- Render method `iso8601_week_based_year` (`%G`): `{:4}`. -/
def FmtState.iso8601_week_based_year (st : FmtState) : Except FormatError FmtState :=
  .ok (st.wr (padIntSpace 4 st.date.isoYearWeek.1))

/-- Render method `hour_of_day` (`%H`). -/
def FmtState.hour_of_day (st : FmtState) : Except FormatError FmtState :=
  .ok (st.wr (padNatZero 2 st.time.hour))

/-- Render method `hour_of_day_12` (`%I`): `(hour + 11) % 12 + 1`. -/
def FmtState.hour_of_day_12 (st : FmtState) : Except FormatError FmtState :=
  .ok (st.wr (padNatZero 2 ((st.time.hour + 11) % 12 + 1)))

/-- Render method `day_of_year` (`%j`): `{:03}`. -/
def FmtState.day_of_year (st : FmtState) : Except FormatError FmtState :=
  .ok (st.wr (padNatZero 3 st.date.ordinal))

/-- Render method `hour_of_day_blank` (`%k`). -/
def FmtState.hour_of_day_blank (st : FmtState) : Except FormatError FmtState :=
  .ok (st.wr (padNatSpace 2 st.time.hour))

/-- Render method `hour_of_day_12_blank` (`%l`). -/
def FmtState.hour_of_day_12_blank (st : FmtState) : Except FormatError FmtState :=
  .ok (st.wr (padNatSpace 2 ((st.time.hour + 11) % 12 + 1)))

/-- Render method `month_of_year` (`%m`). -/
def FmtState.month_of_year (st : FmtState) : Except FormatError FmtState :=
  .ok (st.wr (padNatZero 2 st.date.month))

/-- Render method `minute_of_hour` (`%M`). -/
def FmtState.minute_of_hour (st : FmtState) : Except FormatError FmtState :=
  .ok (st.wr (padNatZero 2 st.time.minute))

/-- Render method `ampm` (`%p`). -/
def FmtState.ampm (st : FmtState) : Except FormatError FmtState :=
  .ok (st.wr (ampmUpper st.time.hour))

/-- Render method `ampm_lower` (`%P`). -/
def FmtState.ampm_lower (st : FmtState) : Except FormatError FmtState :=
  .ok (st.wr (ampmLower st.time.hour))

/-- Render method `second_of_minute` (`%S`). -/
def FmtState.second_of_minute (st : FmtState) : Except FormatError FmtState :=
  .ok (st.wr (padNatZero 2 st.time.second))

/-- The `keep_digits` cascade of `nanosecond_of_minute`: nine minus the
number of trailing decimal zeros, zero for an exactly-zero nanosecond. -/
def keepDigits (ns : Nat) : Nat :=
  if ns % 10 ≠ 0 then 9
  else if ns / 10 % 10 ≠ 0 then 8
  else if ns / 100 % 10 ≠ 0 then 7
  else if ns / 1000 % 10 ≠ 0 then 6
  else if ns / 10000 % 10 ≠ 0 then 5
  else if ns / 100000 % 10 ≠ 0 then 4
  else if ns / 1000000 % 10 ≠ 0 then 3
  else if ns / 10000000 % 10 ≠ 0 then 2
  else if ns / 100000000 % 10 ≠ 0 then 1
  else 0

/-- Body of render method `nanosecond_of_minute` (`%f`) on the nanosecond
value: `{:0>padding$.precision$}` of the decimal string truncates to
`keep_digits` characters, then left-pads with `'0'` to width `padding`
(which is 0 when the decimal string already has nine digits, else 9). -/
def renderNano (ns : Nat) : Str :=
  let nanosString := natRepr ns
  let zerosPadding := if nanosString.length = 9 then 0 else 9
  padLeft '0' zerosPadding (nanosString.take (keepDigits ns))

/-- Render method `nanosecond_of_minute` (`%f`). -/
def FmtState.nanosecond_of_minute (st : FmtState) : Except FormatError FmtState :=
  .ok (st.wr (renderNano st.time.nanosecond))

/-- Render method `day_of_week_from_monday_as_1` (`%u`). -/
def FmtState.day_of_week_from_monday_as_1 (st : FmtState) : Except FormatError FmtState :=
  .ok (st.wr (natRepr st.date.numberFromMonday))

/-- Render method `week_number_of_current_year_start_sunday` (`%U`). -/
def FmtState.week_number_of_current_year_start_sunday (st : FmtState) :
    Except FormatError FmtState :=
  .ok (st.wr (padNatZero 2 st.date.sundayBasedWeek))

/-- Render method `iso8601_week_number` (`%V`). -/
def FmtState.iso8601_week_number (st : FmtState) : Except FormatError FmtState :=
  .ok (st.wr (padNatZero 2 st.date.isoYearWeek.2))

/-- Render method `day_of_week_from_sunday_as_0` (`%w`). -/
def FmtState.day_of_week_from_sunday_as_0 (st : FmtState) : Except FormatError FmtState :=
  .ok (st.wr (natRepr st.date.numberDaysFromSunday))

/-- Render method `week_number_of_current_year_start_monday` (`%W`). -/
def FmtState.week_number_of_current_year_start_monday (st : FmtState) :
    Except FormatError FmtState :=
  .ok (st.wr (padNatZero 2 st.date.mondayBasedWeek))

/-- Render method `year_suffix` (`%y`): `{:02}` of `year.abs() % 100`. -/
def FmtState.year_suffix (st : FmtState) : Except FormatError FmtState :=
  .ok (st.wr (padNatZero 2 (st.date.year.natAbs % 100)))

/-- Render method `year` (`%Y`): `{:04}`. -/
def FmtState.year_m (st : FmtState) : Except FormatError FmtState :=
  .ok (st.wr (padIntZero 4 st.date.year))

/-- Render method `timezone` (`%z`): sign, two-digit hours, two-digit
minutes; nothing when no offset is attached. -/
def FmtState.timezone (st : FmtState) : Except FormatError FmtState :=
  match st.offset with
  | none => .ok st
  | some o =>
    if o.isNegative then
      .ok (st.wr ('-' :: (padNatZero 2 (-o.hours).natAbs ++ padNatZero 2 (-o.minutes).natAbs)))
    else
      .ok (st.wr ('+' :: (padNatZero 2 o.hours.natAbs ++ padNatZero 2 o.minutes.natAbs)))

/-- Render method `timezone_name` (`%Z`): the attached name or nothing. -/
def FmtState.timezone_name (st : FmtState) : Except FormatError FmtState :=
  match st.zone_name with
  | none => .ok st
  | some n => .ok (st.wr n)

/-- Render method `static_str`. -/
def FmtState.static_str (s : Str) (st : FmtState) : Except FormatError FmtState :=
  .ok (st.wr s)

/-- Render method `literal`. -/
def FmtState.literalM (lit : Str) (st : FmtState) : Except FormatError FmtState :=
  .ok (st.wr lit)

/-- Render method `unknown`. -/
def FmtState.unknown (c : Char) (_ : FmtState) : Except FormatError FmtState :=
  .error (.unknownSpecifier c)

/-! ## `src/format/spec_parser.rs`: the render-side dispatcher -/

/-- The render-side `Collector` trait. -/
structure RCollector (σ ε : Type) where
  day_of_week_name_short : σ → Except ε σ
  day_of_week_name_long : σ → Except ε σ
  month_name_short : σ → Except ε σ
  month_name_long : σ → Except ε σ
  year_prefix : σ → Except ε σ
  day_of_month : σ → Except ε σ
  day_of_month_blank : σ → Except ε σ
  iso8601_week_based_year_suffix : σ → Except ε σ
  iso8601_week_based_year : σ → Except ε σ
  hour_of_day : σ → Except ε σ
  hour_of_day_12 : σ → Except ε σ
  day_of_year : σ → Except ε σ
  hour_of_day_blank : σ → Except ε σ
  hour_of_day_12_blank : σ → Except ε σ
  month_of_year : σ → Except ε σ
  minute_of_hour : σ → Except ε σ
  ampm : σ → Except ε σ
  ampm_lower : σ → Except ε σ
  second_of_minute : σ → Except ε σ
  nanosecond_of_minute : σ → Except ε σ
  day_of_week_from_monday_as_1 : σ → Except ε σ
  week_number_of_current_year_start_sunday : σ → Except ε σ
  iso8601_week_number : σ → Except ε σ
  day_of_week_from_sunday_as_0 : σ → Except ε σ
  week_number_of_current_year_start_monday : σ → Except ε σ
  year_suffix : σ → Except ε σ
  year : σ → Except ε σ
  timezone : σ → Except ε σ
  timezone_name : σ → Except ε σ
  static_str : Str → σ → Except ε σ
  literal : Str → σ → Except ε σ
  unknown : Char → σ → Except ε σ

/-- Render default method `time_of_day` (`%T`): `%H:%M:%S`. -/
def RCollector.time_of_day (C : RCollector σ ε) (st : σ) : Except ε σ := do
  let st ← C.hour_of_day st
  let st ← C.static_str (str ":") st
  let st ← C.minute_of_hour st
  let st ← C.static_str (str ":") st
  C.second_of_minute st

/-- Render default method `preferred_date_time` (`%c`), exactly as the source
writes it: `%a  %b  %e  %Y  %T%Y` — the year is emitted both before the time
of day and, with no separator, after it. -/
def RCollector.preferred_date_time (C : RCollector σ ε) (st : σ) : Except ε σ := do
  let st ← C.day_of_week_name_short st
  let st ← C.static_str (str " ") st
  let st ← C.month_name_short st
  let st ← C.static_str (str " ") st
  let st ← C.day_of_month_blank st
  let st ← C.static_str (str " ") st
  let st ← C.year st
  let st ← C.static_str (str " ") st
  let st ← RCollector.time_of_day C st
  C.year st

/-- Render default method `date_mmddyy_slash` (`%D`): `%m/%d/%y`. -/
def RCollector.date_mmddyy_slash (C : RCollector σ ε) (st : σ) : Except ε σ := do
  let st ← C.month_of_year st
  let st ← C.static_str (str "/") st
  let st ← C.day_of_month st
  let st ← C.static_str (str "/") st
  C.year_suffix st

/-- Render default method `date_yyyymmdd_hyphen` (`%F`): `%Y-%m-%d`. -/
def RCollector.date_yyyymmdd_hyphen (C : RCollector σ ε) (st : σ) : Except ε σ := do
  let st ← C.year st
  let st ← C.static_str (str "-") st
  let st ← C.month_of_year st
  let st ← C.static_str (str "-") st
  C.day_of_month st

/-- Render default method `new_line` (`%n`). -/
def RCollector.new_line (C : RCollector σ ε) (st : σ) : Except ε σ :=
  C.static_str (str "\n") st

/-- Render default method `time_ampm` (`%r`): `%I:%M:%S %p`. -/
def RCollector.time_ampm (C : RCollector σ ε) (st : σ) : Except ε σ := do
  let st ← C.hour_of_day_12 st
  let st ← C.static_str (str ":") st
  let st ← C.minute_of_hour st
  let st ← C.static_str (str ":") st
  let st ← C.second_of_minute st
  let st ← C.static_str (str " ") st
  C.ampm st

/-- Render default method `hour_minute_of_day` (`%R`): `%H:%M`. -/
def RCollector.hour_minute_of_day (C : RCollector σ ε) (st : σ) : Except ε σ := do
  let st ← C.hour_of_day st
  let st ← C.static_str (str ":") st
  C.minute_of_hour st

/-- Render default method `tab` (`%t`). -/
def RCollector.tab (C : RCollector σ ε) (st : σ) : Except ε σ :=
  C.static_str (str "\t") st

/-- Render default method `preferred_date` (`%x`): `%m/%d/%y`. -/
def RCollector.preferred_date (C : RCollector σ ε) (st : σ) : Except ε σ := do
  let st ← C.month_of_year st
  let st ← C.static_str (str "/") st
  let st ← C.day_of_month st
  let st ← C.static_str (str "/") st
  C.year_suffix st

/-- Render default method `preferred_time_of_day` (`%X`): `%H:%M:%S`. -/
def RCollector.preferred_time_of_day (C : RCollector σ ε) (st : σ) : Except ε σ := do
  let st ← C.hour_of_day st
  let st ← C.static_str (str ":") st
  let st ← C.minute_of_hour st
  let st ← C.static_str (str ":") st
  C.second_of_minute st

/-- Render default method `percent` (`%%`). -/
def RCollector.percent (C : RCollector σ ε) (st : σ) : Except ε σ :=
  C.static_str (str "%") st

/-- One specifier dispatch of the render-side walk. -/
def rdispatch (C : RCollector σ ε) (b : Char) (st : σ) : Except ε σ :=
  if b = 'a' then C.day_of_week_name_short st
  else if b = 'A' then C.day_of_week_name_long st
  else if b = 'b' || b = 'h' then C.month_name_short st
  else if b = 'B' then C.month_name_long st
  else if b = 'c' then C.preferred_date_time st
  else if b = 'C' then C.year_prefix st
  else if b = 'd' then C.day_of_month st
  else if b = 'D' then C.date_mmddyy_slash st
  else if b = 'e' then C.day_of_month_blank st
  else if b = 'F' then C.date_yyyymmdd_hyphen st
  else if b = 'g' then C.iso8601_week_based_year_suffix st
  else if b = 'G' then C.iso8601_week_based_year st
  else if b = 'H' then C.hour_of_day st
  else if b = 'I' then C.hour_of_day_12 st
  else if b = 'j' then C.day_of_year st
  else if b = 'k' then C.hour_of_day_blank st
  else if b = 'l' then C.hour_of_day_12_blank st
  else if b = 'm' then C.month_of_year st
  else if b = 'M' then C.minute_of_hour st
  else if b = 'n' then C.new_line st
  else if b = 'p' then C.ampm st
  else if b = 'P' then C.ampm_lower st
  else if b = 'r' then C.time_ampm st
  else if b = 'R' then C.hour_minute_of_day st
  else if b = 'S' then C.second_of_minute st
  else if b = 'f' then C.nanosecond_of_minute st
  else if b = 't' then C.tab st
  else if b = 'T' then RCollector.time_of_day C st
  else if b = 'u' then C.day_of_week_from_monday_as_1 st
  else if b = 'U' then C.week_number_of_current_year_start_sunday st
  else if b = 'V' then C.iso8601_week_number st
  else if b = 'w' then C.day_of_week_from_sunday_as_0 st
  else if b = 'W' then C.week_number_of_current_year_start_monday st
  else if b = 'x' then C.preferred_date st
  else if b = 'X' then C.preferred_time_of_day st
  else if b = 'y' then C.year_suffix st
  else if b = 'Y' then C.year st
  else if b = 'z' then C.timezone st
  else if b = 'Z' then C.timezone_name st
  else if b = '%' then C.percent st
  else C.unknown b st

/-- Whether `b` is one of the recognized render-side specifier characters.
The `'f'` case is modelled from the spec: the snapshot of
`src/format/spec_parser.rs` predates the `%f` specifier, while
`src/format.rs` in the same tree implements and tests it, so the current
dispatcher's `b'f' => collector.nanosecond_of_minute()?` arm (mirroring the
parse-side dispatcher's) is restored here. -/
def rrecognized (b : Char) : Bool :=
  b ∈ ['a', 'A', 'b', 'h', 'B', 'c', 'C', 'd', 'D', 'e', 'F', 'g', 'G', 'H',
       'I', 'j', 'k', 'l', 'm', 'M', 'n', 'p', 'P', 'r', 'R', 'S', 'f', 't',
       'T', 'u', 'U', 'V', 'w', 'W', 'x', 'X', 'y', 'Y', 'z', 'Z', '%']

/-- The loop of `parse_conversion_specifications`, with explicit fuel (as for
`pwalkF`, any `fuel > format.length` behaves like the Rust loop). -/
def rwalkF (C : RCollector σ ε) : Nat → Str → σ → Except ε σ
  | 0, _, st => .ok st
  | fuel + 1, fmt, st =>
    match fmt with
    | [] => .ok st
    | c :: rest =>
      let i := (c :: rest).findIdx fun ch => ch = '%'
      if i ≠ 0 then
        match C.literal ((c :: rest).take i) st with
        | .error e => .error e
        | .ok st => rwalkF C fuel ((c :: rest).drop i) st
      else
        match rest with
        | [] => C.percent st
        | b :: rest' =>
          if rrecognized b then
            match rdispatch C b st with
            | .error e => .error e
            | .ok st => rwalkF C fuel rest' st
          else
            match C.unknown b st with
            | .error e => .error e
            | .ok st => rwalkF C fuel rest' st

/-- `parse_conversion_specifications(format, collector)`. -/
def parse_conversion_specifications (C : RCollector σ ε) (out : σ → Except ε τ)
    (fmt : Str) (st : σ) : Except ε τ :=
  match rwalkF C (fmt.length + 1) fmt st with
  | .error e => .error e
  | .ok st => out st

/-- The `FormatCollector` realization of the render-side trait. -/
def formatCollector : RCollector FmtState FormatError where
  day_of_week_name_short := FmtState.day_of_week_name_short
  day_of_week_name_long := FmtState.day_of_week_name_long
  month_name_short := FmtState.month_name_short
  month_name_long := FmtState.month_name_long
  year_prefix := FmtState.year_prefix
  day_of_month := FmtState.day_of_month
  day_of_month_blank := FmtState.day_of_month_blank
  iso8601_week_based_year_suffix := FmtState.iso8601_week_based_year_suffix
  iso8601_week_based_year := FmtState.iso8601_week_based_year
  hour_of_day := FmtState.hour_of_day
  hour_of_day_12 := FmtState.hour_of_day_12
  day_of_year := FmtState.day_of_year
  hour_of_day_blank := FmtState.hour_of_day_blank
  hour_of_day_12_blank := FmtState.hour_of_day_12_blank
  month_of_year := FmtState.month_of_year
  minute_of_hour := FmtState.minute_of_hour
  ampm := FmtState.ampm
  ampm_lower := FmtState.ampm_lower
  second_of_minute := FmtState.second_of_minute
  nanosecond_of_minute := FmtState.nanosecond_of_minute
  day_of_week_from_monday_as_1 := FmtState.day_of_week_from_monday_as_1
  week_number_of_current_year_start_sunday :=
    FmtState.week_number_of_current_year_start_sunday
  iso8601_week_number := FmtState.iso8601_week_number
  day_of_week_from_sunday_as_0 := FmtState.day_of_week_from_sunday_as_0
  week_number_of_current_year_start_monday :=
    FmtState.week_number_of_current_year_start_monday
  year_suffix := FmtState.year_suffix
  year := FmtState.year_m
  timezone := FmtState.timezone
  timezone_name := FmtState.timezone_name
  static_str := FmtState.static_str
  literal := FmtState.literalM
  unknown := FmtState.unknown

/-- `format_date_time`. -/
def format_date_time (fmt : Str) (dt : PrimDateTime) : Except FormatError Str :=
  parse_conversion_specifications formatCollector (fun st => .ok st.out) fmt
    ⟨dt.date, dt.time, none, none, []⟩

/-- `format_offset_date_time` (the value of an `OffsetDateTime` with its
offset). -/
def format_offset_date_time (fmt : Str) (dt : PrimDateTime) (offset : Offset) :
    Except FormatError Str :=
  parse_conversion_specifications formatCollector (fun st => .ok st.out) fmt
    ⟨dt.date, dt.time, some offset, none, []⟩

/-- `format_zoned_date_time`. -/
def format_zoned_date_time (fmt : Str) (dt : PrimDateTime) (offset : Offset)
    (zoneName : Str) : Except FormatError Str :=
  parse_conversion_specifications formatCollector (fun st => .ok st.out) fmt
    ⟨dt.date, dt.time, some offset, some zoneName, []⟩

/-! ## `src/parse/time_format_item.rs`: the compiler to a reusable program -/

/-- `Error` of `src/parse/time_format_item.rs`. -/
inductive CompileError
  | unknownSpecifier (c : Char)
  | noCorrespondingFormatItem (s : String)
deriving DecidableEq, Repr

/-- `time::format_description::modifier::Padding`. -/
inductive Padding
  | zero
  | space
  | padNone
deriving DecidableEq, Repr

/-- The `time::format_description::Component` values this compiler builds
(each constructor records the modifier fields the source sets). -/
inductive Component
  | weekday (long : Bool) (caseSensitive : Bool) (oneIndexedMonday : Bool)
  | monthName (long : Bool) (caseSensitive : Bool)
  | day (p : Padding)
  | hour (p : Padding) (is12 : Bool)
  | ordinalDay (p : Padding)
  | monthNum (p : Padding)
  | minute (p : Padding)
  | period (caseSensitive : Bool)
  | second (p : Padding)
  | subsecond
  | weekNumber (p : Padding) (mondayBased : Bool)
  | weekdaySundayZero
  | yearComp (p : Padding) (lastTwo : Bool)
  | offsetHourMandatorySign
  | offsetMinute
deriving DecidableEq, Repr

/-- `time::format_description::FormatItem`. -/
inductive FormatItem
  | literal (s : Str)
  | component (c : Component)
  | optionalItem (f : FormatItem)
  | first (fs : List FormatItem)

/-- The `all_paddings!` macro: an alternation of the three padding policies. -/
def allPaddings (mk : Padding → Component) : FormatItem :=
  .first [.component (mk .zero), .component (mk .space), .component (mk .padNone)]

/-- `ToFormatItemCollector`: the original format text and the program built
so far. -/
structure CompileState where
  fmt : Str
  items : List FormatItem

/-- Append one item. -/
def CompileState.push (st : CompileState) (it : FormatItem) : CompileState :=
  { st with items := st.items ++ [it] }

/-- The `ToFormatItemCollector` realization of the parse-side trait (the
`literal` method stores the span of the original format, whose content is the
literal text itself). -/
def compileCollector : PCollector CompileState CompileError where
  spaces := fun st => .ok (st.push (.optionalItem (.first
    [.literal (str " "), .literal (str "\n"), .literal (str "\t")])))
  day_of_week_name := fun st => .ok (st.push (.first
    [.component (.weekday true false false), .component (.weekday false false false)]))
  month_name := fun st => .ok (st.push (.first
    [.component (.monthName true false), .component (.monthName false false)]))
  year_prefix := fun _ => .error (.noCorrespondingFormatItem "%C")
  day_of_month := fun st => .ok (st.push (allPaddings .day))
  hour_of_day := fun st => .ok (st.push (allPaddings (.hour · false)))
  hour_of_day_12 := fun st => .ok (st.push (allPaddings (.hour · true)))
  day_of_year := fun st => .ok (st.push (allPaddings .ordinalDay))
  month_of_year := fun st => .ok (st.push (allPaddings .monthNum))
  minute_of_hour := fun st => .ok (st.push (allPaddings .minute))
  ampm := fun st => .ok (st.push (.component (.period false)))
  second_of_minute := fun st => .ok (st.push (allPaddings .second))
  nanosecond_of_minute := fun st => .ok (st.push (.component .subsecond))
  week_number_of_current_year_start_sunday := fun st =>
    .ok (st.push (allPaddings (.weekNumber · false)))
  day_of_week_from_sunday_as_0 := fun st => .ok (st.push (.component .weekdaySundayZero))
  week_number_of_current_year_start_monday := fun st =>
    .ok (st.push (allPaddings (.weekNumber · true)))
  year_suffix := fun st => .ok (st.push (allPaddings (.yearComp · true)))
  year := fun st => .ok (st.push (allPaddings (.yearComp · false)))
  timezone := fun st => .ok (((st.push
    (.component .offsetHourMandatorySign)).push
    (.optionalItem (.literal (str ":")))).push
    (.component .offsetMinute))
  timezone_name := fun _ => .error (.noCorrespondingFormatItem "timezone name")
  static_str := fun s st => .ok (st.push (.literal s))
  literal := fun lit st => .ok (st.push (.literal lit))
  unknown := fun c _ => .error (.unknownSpecifier c)
  unconsumed_input := fun _ => .ok ()

/-- `parse_to_format_item` (the parse-side compiler; called with
`strict = false`). -/
def parse_to_format_item (fmt : Str) : Except CompileError (List FormatItem) :=
  parse_format_specifications compileCollector (fun st => .ok st.items) fmt
    ⟨fmt, []⟩ false

/-! ## Derived notions used by the verification -/

/-- The per-specifier fields of the recover accumulator (everything except
the remaining input): the frame left untouched by weekday and week-number
specifiers. -/
def accumUnchanged (st st' : ParseState) : Prop :=
  st'.year = st.year ∧ st'.day = st.day ∧ st'.hour = st.hour ∧
  st'.minute = st.minute ∧ st'.second = st.second ∧
  st'.nanosecond = st.nanosecond ∧ st'.zone = st.zone

/-- Strip trailing `'0'` characters, keeping at least one character — the
spec's description of the `%f` field derived from a 9-digit zero-padded
nanosecond. -/
def stripTrailingZeros (s : Str) : Str :=
  let r := (s.reverse.dropWhile (· = '0')).reverse
  if r = [] then ['0'] else r

/-- Scan of the parse-side token stream (same steps as `pwalkF`) for the
first specifier the compiler rejects: `%C`, `%Z`, or an unrecognized one. -/
def firstBadF : Nat → Str → Option Char
  | 0, _ => none
  | fuel + 1, fmt =>
    match fmt with
    | [] => none
    | c :: rest =>
      let i := (c :: rest).findIdx fun ch => ch = '%' || rustIsWhitespace ch
      if i ≠ 0 then firstBadF fuel ((c :: rest).drop i)
      else if rustIsWhitespace c then
        firstBadF fuel ((c :: rest).dropWhile rustIsWhitespace)
      else
        match rest with
        | [] => none
        | b :: rest' =>
          if b = 'C' || b = 'Z' || !precognized b then some b
          else firstBadF fuel rest'

/-- First rejected specifier of a format string. -/
def firstBad (fmt : Str) : Option Char := firstBadF (fmt.length + 1) fmt

/-- Scan for an occurrence of the specifier `%C` or `%Z` anywhere in the
token stream (also past unrecognized specifiers). -/
def mentionsCZF : Nat → Str → Bool
  | 0, _ => false
  | fuel + 1, fmt =>
    match fmt with
    | [] => false
    | c :: rest =>
      let i := (c :: rest).findIdx fun ch => ch = '%' || rustIsWhitespace ch
      if i ≠ 0 then mentionsCZF fuel ((c :: rest).drop i)
      else if rustIsWhitespace c then
        mentionsCZF fuel ((c :: rest).dropWhile rustIsWhitespace)
      else
        match rest with
        | [] => false
        | b :: rest' => b = 'C' || b = 'Z' || mentionsCZF fuel rest'

/-- Whether the token stream of `fmt` holds a `%C` or `%Z` specifier. -/
def mentionsCZ (fmt : Str) : Bool := mentionsCZF (fmt.length + 1) fmt

/-- Scan checking that every specifier of the token stream is recognized. -/
def allRecognizedF : Nat → Str → Bool
  | 0, _ => true
  | fuel + 1, fmt =>
    match fmt with
    | [] => true
    | c :: rest =>
      let i := (c :: rest).findIdx fun ch => ch = '%' || rustIsWhitespace ch
      if i ≠ 0 then allRecognizedF fuel ((c :: rest).drop i)
      else if rustIsWhitespace c then
        allRecognizedF fuel ((c :: rest).dropWhile rustIsWhitespace)
      else
        match rest with
        | [] => true
        | b :: rest' => precognized b && allRecognizedF fuel rest'

/-- Whether every specifier of the token stream of `fmt` is recognized. -/
def allRecognized (fmt : Str) : Bool := allRecognizedF (fmt.length + 1) fmt

/-- The error the compiler reports for the first rejected specifier. -/
def badErr (c : Char) : CompileError :=
  if c = 'C' then .noCorrespondingFormatItem "%C"
  else if c = 'Z' then .noCorrespondingFormatItem "timezone name"
  else .unknownSpecifier c

/-! ## Theorems -/

/-- Binding a successful `Except` computation runs the continuation. -/
theorem except_ok_bind {ε α β : Type} (a : α) (f : α → Except ε β) :
    (Except.ok a >>= f : Except ε β) = f a := rfl

/-- Binding a failed `Except` computation propagates the error. -/
theorem except_error_bind {ε α β : Type} (e : ε) (f : α → Except ε β) :
    (Except.error e >>= f : Except ε β) = .error e := rfl

/-- C1 (code bug): the render realization's `%c` composite is not the fixed
sequence `%a %b %e %T %Y` shared with the recover realization: rendering
2022-03-06 12:34:56 with `%c` produces `"Sun Mar  6 2022 12:34:562022"` (the
year before the time and again, unseparated, after it), not the
`"Sun Mar  6 12:34:56 2022"` the repository's own test asserts, and
recovering that output with `%c` fails instead of yielding the value back. -/
theorem c1_percent_c_render_parse_divergence :
    format_date_time (str "%c") ⟨⟨2022, 65⟩, ⟨12, 34, 56, 0⟩⟩ =
        .ok (str "Sun Mar  6 2022 12:34:562022") ∧
    str "Sun Mar  6 2022 12:34:562022" ≠ str "Sun Mar  6 12:34:56 2022" ∧
    parse_date_time_maybe_with_zone (str "%c") (str "Sun Mar  6 2022 12:34:562022") =
        .error (.notMatch ":") :=
  ⟨by decide, by decide, by decide⟩

/-- C3: when the walk of the format over the input succeeds, the strict
recover variant fails with `UnconvertedDataRemains` carrying exactly the
leftover text whenever any input remains, while the non-strict variant
ignores the leftover and finalizes the accumulator either way; in
particular `recover_strict("%F", "2022-03-06T12:34:56Z")` fails with the
leftover `"T12:34:56Z"` and `recover_strict("%FT%TZ", ...)` succeeds. -/
theorem c3_strict_rejects_leftover :
    (∀ (fmt s : Str) (st : ParseState),
        pwalkF parseCollector (fmt.length + 1) fmt (ParseState.new s) = .ok st →
        (st.s ≠ [] →
          parse_strict_date_time_maybe_with_zone fmt s =
            .error (.unconvertedDataRemains st.s)) ∧
        parse_date_time_maybe_with_zone fmt s = ParseState.output st ∧
        (st.s = [] →
          parse_strict_date_time_maybe_with_zone fmt s = ParseState.output st)) ∧
    parse_strict_date_time_maybe_with_zone (str "%F") (str "2022-03-06T12:34:56Z") =
        .error (.unconvertedDataRemains (str "T12:34:56Z")) ∧
    parse_strict_date_time_maybe_with_zone (str "%FT%TZ") (str "2022-03-06T12:34:56Z") =
        .ok (⟨⟨2022, 65⟩, ⟨12, 34, 56, 0⟩⟩, none) := by
  refine ⟨?_, by decide, by decide⟩
  intro fmt s st hwalk
  have hu : parseCollector.unconsumed_input st = ParseState.unconsumed_input st := rfl
  refine ⟨fun hne => ?_, ?_, fun he => ?_⟩
  · simp [parse_strict_date_time_maybe_with_zone, parse_format_specifications, hwalk,
      hu, ParseState.unconsumed_input, List.length_pos.mpr hne]
  · simp [parse_date_time_maybe_with_zone, parse_format_specifications, hwalk]
  · simp [parse_strict_date_time_maybe_with_zone, parse_format_specifications, hwalk,
      hu, ParseState.unconsumed_input, he]

/-- Witness for C3 at `("%F", "2022-03-06T12:34:56Z")`: the walk leaves
`"T12:34:56Z"` unconsumed and strict recovery reports exactly it. -/
theorem c3_witness :
    parse_strict_date_time_maybe_with_zone (str "%F") (str "2022-03-06T12:34:56Z") =
      .error (.unconvertedDataRemains (str "T12:34:56Z")) :=
  (c3_strict_rejects_leftover.1 (str "%F") (str "2022-03-06T12:34:56Z")
      ⟨str "T12:34:56Z", .year 2022, .monthDay 3 6, .unspecified, 0, 0, 0, none⟩
      (by decide)).1 (by decide)

/-- A successful `parse_nat` changes only the remaining input of the state. -/
theorem ParseState.parseNat_state (st : ParseState) (a b v : Nat) (st' : ParseState)
    (h : st.parseNat a b = .ok (v, st')) : st' = { st with s := st'.s } := by
  unfold ParseState.parseNat at h
  split at h
  · simp at h
  · cases hb : parseNatAux a (st.s.take (min b st.s.length)) 0 0 with
    | error e => rw [hb] at h; simp at h
    | ok pr =>
      obtain ⟨res, read⟩ := pr
      rw [hb] at h
      simp only [Except.ok.injEq, Prod.mk.injEq] at h
      rw [← h.2]

/-- A successful `parse_int` changes only the remaining input of the state. -/
theorem ParseState.parseInt_state (st : ParseState) (b : Nat) (v : Int) (st' : ParseState)
    (h : st.parseInt b = .ok (v, st')) : st' = { st with s := st'.s } := by
  unfold ParseState.parseInt at h
  split at h
  · simp at h
  · cases hb : parseIntAux (st.s.take (min b st.s.length)) 0 0 false false with
    | error e => rw [hb] at h; simp at h
    | ok pr =>
      obtain ⟨res, read, negate⟩ := pr
      rw [hb] at h
      simp only [Except.ok.injEq, Prod.mk.injEq] at h
      rw [← h.2]

/-- Once the day field holds a day-of-year, a matched month name leaves it
unchanged. -/
theorem monthNameLoop_dayOfYear (ms : List Nat) (st st' : ParseState) (d : Nat)
    (h : monthNameLoop ms st = .ok st') (hd : st.day = .dayOfYear d) :
    st'.day = .dayOfYear d := by
  induction ms generalizing st with
  | nil => simp [monthNameLoop] at h
  | cons m ms ih =>
    unfold monthNameLoop at h
    dsimp only at h
    split_ifs at h with h1 h2
    · simp only [Except.ok.injEq] at h
      rw [← h]
      simp [setMonth, hd]
    · simp only [Except.ok.injEq] at h
      rw [← h]
      simp [setMonth, hd]
    · exact ih st h hd

/-- Once the hour field holds a full-day hour, a matched AM/PM marker leaves
it unchanged. -/
theorem ampmLoop_fullDay (hs : List Nat) (st st' : ParseState) (hr : Nat)
    (h : ampmLoop hs st = .ok st') (hh : st.hour = .fullDay hr) :
    st'.hour = .fullDay hr := by
  induction hs generalizing st with
  | nil => simp [ampmLoop] at h
  | cons x hs ih =>
    unfold ampmLoop at h
    dsimp only at h
    split_ifs at h with h1
    · simp only [hh, Except.ok.injEq] at h
      rw [← h]
    · exact ih st h hh

/-- On a half-day hour, a matched AM/PM marker overwrites only the half-day
flag. -/
theorem ampmLoop_halfDay (hs : List Nat) (st st' : ParseState) (hr : Nat) (pm : Bool)
    (h : ampmLoop hs st = .ok st') (hh : st.hour = .halfDay hr pm) :
    ∃ pm', st'.hour = .halfDay hr pm' := by
  induction hs generalizing st with
  | nil => simp [ampmLoop] at h
  | cons x hs ih =>
    unfold ampmLoop at h
    dsimp only at h
    split_ifs at h with h1
    · simp only [hh, Except.ok.injEq] at h
      exact ⟨_, by rw [← h]⟩
    · exact ih st h hh

/-- C4: each ambiguous accumulator field obeys "strong wins, else
last-write-wins": with an explicit `Year` set, `%C` and `%y` leave the year
unchanged; with `DayOfYear` set, month and day-of-month specifiers leave the
day unchanged; with a full-day hour set, `%I` and `%p` leave the hour
unchanged; among equally weak representations the later occurrence
overwrites the earlier one with the newly parsed value, touching only its
own component: `%C` installs the century it just read keeping the suffix,
`%y` the suffix it just read keeping the century, `%I` the half-day hour it
just read (mod 12) keeping the AM/PM flag, `%p` the flag of the marker it
matched (false for `am`, true otherwise) keeping the hour; `%j` installs
exactly the day-of-year it parsed; and `recover("%C%y", "2022")` yields
year 2022. -/
theorem c4_strong_wins_else_last_write :
    (∀ (st st' : ParseState) (y : Int), ParseState.year_prefix st = .ok st' →
        st.year = .year y → st'.year = .year y) ∧
    (∀ (st st' : ParseState) (y : Int), ParseState.year_suffix st = .ok st' →
        st.year = .year y → st'.year = .year y) ∧
    (∀ (st st' : ParseState) (d : Nat), ParseState.day_of_month st = .ok st' →
        st.day = .dayOfYear d → st'.day = .dayOfYear d) ∧
    (∀ (st st' : ParseState) (d : Nat), ParseState.month_of_year st = .ok st' →
        st.day = .dayOfYear d → st'.day = .dayOfYear d) ∧
    (∀ (st st' : ParseState) (d : Nat), ParseState.month_name st = .ok st' →
        st.day = .dayOfYear d → st'.day = .dayOfYear d) ∧
    (∀ (st st' : ParseState) (hr : Nat), ParseState.hour_of_day_12 st = .ok st' →
        st.hour = .fullDay hr → st'.hour = .fullDay hr) ∧
    (∀ (st st' : ParseState) (hr : Nat), ParseState.ampm st = .ok st' →
        st.hour = .fullDay hr → st'.hour = .fullDay hr) ∧
    (∀ (st st1 st' : ParseState) (p0 : Int) (s0 : Nat) (p : Int),
        st.parseInt 2 = .ok (p, st1) → st.year = .prefixSuffix p0 s0 →
        ParseState.year_prefix st = .ok st' → st'.year = .prefixSuffix p s0) ∧
    (∀ (st st1 st' : ParseState) (p0 : Int) (s0 y : Nat),
        st.parseNat 1 2 = .ok (y, st1) → st.year = .prefixSuffix p0 s0 →
        ParseState.year_suffix st = .ok st' → st'.year = .prefixSuffix p0 y) ∧
    (∀ (st st1 st' : ParseState) (hr0 : Nat) (pm : Bool) (hour : Nat),
        st.parseNat 1 2 = .ok (hour, st1) → st.hour = .halfDay hr0 pm →
        ParseState.hour_of_day_12 st = .ok st' → st'.hour = .halfDay (hour % 12) pm) ∧
    (∀ (st st' : ParseState) (hr : Nat) (pm : Bool), ParseState.ampm st = .ok st' →
        st.hour = .halfDay hr pm →
        (st.startsWithIgnoreAsciiCase (ampmLower 0) = true →
          st'.hour = .halfDay hr false) ∧
        (st.startsWithIgnoreAsciiCase (ampmLower 0) = false →
          st'.hour = .halfDay hr true)) ∧
    (∀ (st st1 st' : ParseState) (d : Nat), st.parseNat 1 3 = .ok (d, st1) →
        ParseState.day_of_year st = .ok st' → st'.day = .dayOfYear d) ∧
    parse_date_time_maybe_with_zone (str "%C%y") (str "2022") =
        .ok (⟨⟨2022, 1⟩, ⟨0, 0, 0, 0⟩⟩, none) := by
  refine ⟨?_, ?_, ?_, ?_, ?_, ?_, ?_, ?_, ?_, ?_, ?_, ?_, by decide⟩
  · intro st st' y h hy
    unfold ParseState.year_prefix at h
    cases hpi : st.parseInt 2 with
    | error e => rw [hpi] at h; simp at h
    | ok pr =>
      obtain ⟨p, st1⟩ := pr
      have h1 := ParseState.parseInt_state st 2 p st1 hpi
      have hy1 : st1.year = .year y := by rw [h1]; exact hy
      rw [hpi] at h
      simp only [hy1, Except.ok.injEq] at h
      rw [← h]
  · intro st st' y h hy
    unfold ParseState.year_suffix at h
    cases hpi : st.parseNat 1 2 with
    | error e => rw [hpi] at h; simp at h
    | ok pr =>
      obtain ⟨v, st1⟩ := pr
      have h1 := ParseState.parseNat_state st 1 2 v st1 hpi
      have hy1 : st1.year = .year y := by rw [h1]; exact hy
      rw [hpi] at h
      simp only [hy1] at h
      split_ifs at h
      simp only [Except.ok.injEq] at h
      rw [← h]
  · intro st st' d h hd
    unfold ParseState.day_of_month at h
    cases hpi : st.parseNat 1 2 with
    | error e => rw [hpi] at h; simp at h
    | ok pr =>
      obtain ⟨v, st1⟩ := pr
      have h1 := ParseState.parseNat_state st 1 2 v st1 hpi
      have hd1 : st1.day = .dayOfYear d := by rw [h1]; exact hd
      rw [hpi] at h
      simp only [hd1] at h
      split_ifs at h
      simp only [Except.ok.injEq] at h
      rw [← h]
  · intro st st' d h hd
    unfold ParseState.month_of_year at h
    cases hpi : st.parseNat 1 2 with
    | error e => rw [hpi] at h; simp at h
    | ok pr =>
      obtain ⟨v, st1⟩ := pr
      have h1 := ParseState.parseNat_state st 1 2 v st1 hpi
      have hd1 : st1.day = .dayOfYear d := by rw [h1]; exact hd
      rw [hpi] at h
      simp only at h
      split_ifs at h
      simp only [Except.ok.injEq] at h
      rw [← h]
      simp [setMonth, hd1]
  · intro st st' d h hd
    exact monthNameLoop_dayOfYear _ st st' d h hd
  · intro st st' hr h hh
    unfold ParseState.hour_of_day_12 at h
    cases hpi : st.parseNat 1 2 with
    | error e => rw [hpi] at h; simp at h
    | ok pr =>
      obtain ⟨v, st1⟩ := pr
      have h1 := ParseState.parseNat_state st 1 2 v st1 hpi
      have hh1 : st1.hour = .fullDay hr := by rw [h1]; exact hh
      rw [hpi] at h
      simp only [hh1] at h
      split_ifs at h
      simp only [Except.ok.injEq] at h
      rw [← h]
  · intro st st' hr h hh
    exact ampmLoop_fullDay _ st st' hr h hh
  · intro st st1 st' p0 s0 p hpi hy h
    unfold ParseState.year_prefix at h
    have h1 := ParseState.parseInt_state st 2 p st1 hpi
    have hy1 : st1.year = .prefixSuffix p0 s0 := by rw [h1]; exact hy
    rw [hpi] at h
    simp only [hy1, Except.ok.injEq] at h
    rw [← h]
  · intro st st1 st' p0 s0 y hpi hy h
    unfold ParseState.year_suffix at h
    have h1 := ParseState.parseNat_state st 1 2 y st1 hpi
    have hy1 : st1.year = .prefixSuffix p0 s0 := by rw [h1]; exact hy
    rw [hpi] at h
    simp only [hy1] at h
    split_ifs at h
    simp only [Except.ok.injEq] at h
    rw [← h]
  · intro st st1 st' hr0 pm hour hpi hh h
    unfold ParseState.hour_of_day_12 at h
    have h1 := ParseState.parseNat_state st 1 2 hour st1 hpi
    have hh1 : st1.hour = .halfDay hr0 pm := by rw [h1]; exact hh
    rw [hpi] at h
    simp only [hh1] at h
    split_ifs at h
    simp only [Except.ok.injEq] at h
    rw [← h]
  · intro st st' hr pm h hh
    unfold ParseState.ampm at h
    unfold ampmLoop at h
    unfold ampmLoop at h
    unfold ampmLoop at h
    dsimp only at h
    split_ifs at h with h1 h2
    · constructor
      · intro _
        simp only [hh, Except.ok.injEq] at h
        rw [← h]
        rfl
      · intro ham
        rw [h1] at ham
        exact Bool.noConfusion ham
    · constructor
      · intro ham
        rw [ham] at h1
        exact absurd rfl h1
      · intro _
        simp only [hh, Except.ok.injEq] at h
        rw [← h]
        rfl
  · intro st st1 st' d hpi h
    unfold ParseState.day_of_year at h
    rw [hpi] at h
    simp only at h
    split_ifs at h
    simp only [Except.ok.injEq] at h
    rw [← h]

/-- Witness for C4: on a state whose year is the explicit `Year 2022`, a
later `%C` consuming `"20"` succeeds and leaves the year unchanged; and on a
state holding the weak pair century 20 / suffix 22, a later `%C` reading
`"19"` overwrites the century with the newly parsed 19, keeping suffix 22. -/
theorem c4_witness :
    (ParseState.year_prefix ⟨str "20", .year 2022, .unspecified, .unspecified, 0, 0, 0, none⟩ =
        .ok ⟨[], .year 2022, .unspecified, .unspecified, 0, 0, 0, none⟩ ∧
      (⟨[], .year 2022, .unspecified, .unspecified, 0, 0, 0, none⟩ : ParseState).year =
        .year 2022) ∧
    (⟨[], .prefixSuffix 19 22, .unspecified, .unspecified, 0, 0, 0, none⟩ : ParseState).year =
        .prefixSuffix 19 22 :=
  ⟨⟨by decide, c4_strong_wins_else_last_write.1
      ⟨str "20", .year 2022, .unspecified, .unspecified, 0, 0, 0, none⟩
      ⟨[], .year 2022, .unspecified, .unspecified, 0, 0, 0, none⟩ 2022
      (by decide) (by decide)⟩,
   c4_strong_wins_else_last_write.2.2.2.2.2.2.2.1
      ⟨str "19", .prefixSuffix 20 22, .unspecified, .unspecified, 0, 0, 0, none⟩
      ⟨[], .prefixSuffix 20 22, .unspecified, .unspecified, 0, 0, 0, none⟩
      ⟨[], .prefixSuffix 19 22, .unspecified, .unspecified, 0, 0, 0, none⟩
      20 22 19 (by decide) (by decide) (by decide)⟩

/-- C5: recover finalization resolves defaults as the spec states: year 1900
when unspecified, century times 100 plus suffix with the checked i32
arithmetic failing outside the i32 range, ordinal day 1 when no day was
specified, hour 0 when unspecified, PM contributing 12; the accumulated
half-day hour combined with AM/PM gives `recover("%I %p")` hours 0, 12 and
13 on `"12 AM"`, `"12 pm"` and `"1 pm"`; and a calendar-construction failure
is propagated as the call's error (e.g. `recover("%m%d", "0231")`). -/
theorem c5_finalization_defaults :
    resolveYear .unspecified = .ok 1900 ∧
    (∀ y : Int, resolveYear (.year y) = .ok y) ∧
    (∀ (p : Int) (s : Nat), i32Min ≤ p * 100 → p * 100 ≤ i32Max →
        i32Min ≤ p * 100 + s → p * 100 + s ≤ i32Max →
        resolveYear (.prefixSuffix p s) = .ok (p * 100 + s)) ∧
    (∀ (p : Int) (s : Nat), (p * 100 < i32Min ∨ i32Max < p * 100 ∨
        p * 100 + s < i32Min ∨ i32Max < p * 100 + s) →
        resolveYear (.prefixSuffix p s) = .error (.componentOutOfRange "year")) ∧
    (∀ y : Int, -9999 ≤ y → y ≤ 9999 → resolveDate y .unspecified = .ok ⟨y, 1⟩) ∧
    resolveHour .unspecified = 0 ∧
    (∀ h : Nat, resolveHour (.halfDay h true) = h + 12) ∧
    (∀ h : Nat, resolveHour (.halfDay h false) = h) ∧
    (∀ (st : ParseState) (y : Int) (e : ParseError),
        resolveYear st.year = .ok y → resolveDate y st.day = .error e →
        ParseState.output st = .error e) ∧
    parse_date_time_maybe_with_zone (str "%I %p") (str "12 AM") =
        .ok (⟨⟨1900, 1⟩, ⟨0, 0, 0, 0⟩⟩, none) ∧
    parse_date_time_maybe_with_zone (str "%I %p") (str "12 pm") =
        .ok (⟨⟨1900, 1⟩, ⟨12, 0, 0, 0⟩⟩, none) ∧
    parse_date_time_maybe_with_zone (str "%I %p") (str "1 pm") =
        .ok (⟨⟨1900, 1⟩, ⟨13, 0, 0, 0⟩⟩, none) ∧
    parse_date_time_maybe_with_zone (str "%m%d") (str "0231") =
        .error (.componentRange "day") := by
  refine ⟨rfl, fun y => rfl, ?_, ?_, ?_, rfl, fun h => rfl, fun h => rfl, ?_,
    by decide, by decide, by decide, by decide⟩
  · intro p s h1 h2 h3 h4
    unfold resolveYear
    dsimp only
    split_ifs with hc
    · rfl
    · simp only [Bool.and_eq_true, decide_eq_true_eq] at hc
      omega
  · intro p s hbad
    unfold resolveYear
    dsimp only
    split_ifs with hc
    · simp only [Bool.and_eq_true, decide_eq_true_eq] at hc
      omega
    · rfl
  · intro y h1 h2
    unfold resolveDate Date.fromOrdinalDate
    dsimp only
    split_ifs with hc hc2
    · simp only [Bool.or_eq_true, decide_eq_true_eq] at hc
      omega
    · rfl
    · simp only [Bool.and_eq_true, decide_eq_true_eq] at hc2
      unfold daysInYear at hc2
      split_ifs at hc2 <;> omega
  · intro st y e hy hd
    unfold ParseState.output
    rw [hy]
    dsimp only
    rw [hd]

/-- Witness for C5: the century pair (20, 22) resolves to 2022, the
unspecified day defaults to ordinal 1, and finalizing an accumulator holding
February 31 propagates the calendar-construction failure. -/
theorem c5_witness :
    resolveYear (.prefixSuffix 20 22) = .ok 2022 ∧
    resolveDate 1900 .unspecified = .ok ⟨1900, 1⟩ ∧
    ParseState.output ⟨[], .unspecified, .monthDay 2 31, .unspecified, 0, 0, 0, none⟩ =
        .error (.componentRange "day") :=
  ⟨(c5_finalization_defaults.2.2.1 20 22 (by decide) (by decide) (by decide) (by decide)),
   (c5_finalization_defaults.2.2.2.2.1 1900 (by decide) (by decide)),
   (c5_finalization_defaults.2.2.2.2.2.2.2.2.1
      ⟨[], .unspecified, .monthDay 2 31, .unspecified, 0, 0, 0, none⟩ 1900
      (.componentRange "day") (by decide) (by decide))⟩

/-- A `parse_nat` with minimum and maximum 2 on two leading digits consumes
exactly them. -/
theorem parseNat22_two_digits (st : ParseState) (d1 d2 : Char) (rest : Str)
    (hs : st.s = d1 :: d2 :: rest) (h1 : '0' ≤ d1) (h1' : d1 ≤ '9')
    (h2 : '0' ≤ d2) (h2' : d2 ≤ '9') :
    st.parseNat 2 2 =
      .ok ((d1.toNat - 48) * 10 + (d2.toNat - 48), { st with s := rest }) := by
  unfold ParseState.parseNat
  rw [hs]
  have hm : min 2 (d1 :: d2 :: rest).length = 2 := by simp
  rw [hm]
  simp [parseNatAux, h1, h1', h2, h2', List.take]

/-- After the sign, `%z` consumes exactly two digits, an optional `:` and two
more digits, and stores the signed offset. -/
theorem timezoneAfterSign_spec (st : ParseState) (negate : Bool)
    (d1 d2 d3 d4 : Char) (rest : Str) (hv mv : Nat)
    (hs : st.s = d1 :: d2 :: ':' :: d3 :: d4 :: rest ∨
          (st.s = d1 :: d2 :: d3 :: d4 :: rest ∧ d3 ≠ ':'))
    (h1 : '0' ≤ d1) (h1' : d1 ≤ '9') (h2 : '0' ≤ d2) (h2' : d2 ≤ '9')
    (h3 : '0' ≤ d3) (h3' : d3 ≤ '9') (h4 : '0' ≤ d4) (h4' : d4 ≤ '9')
    (hhv : hv = (d1.toNat - 48) * 10 + (d2.toNat - 48))
    (hmv : mv = (d3.toNat - 48) * 10 + (d4.toNat - 48))
    (hh : hv ≤ 23) (hm : mv ≤ 59) :
    ParseState.timezoneAfterSign st negate =
      .ok { st with
            s := rest,
            zone := some (.offset (if negate then ⟨-(hv : Int), -(mv : Int)⟩
                                   else ⟨(hv : Int), (mv : Int)⟩)) } := by
  have hfr : ∀ a b : Nat, a ≤ 25 → b ≤ 59 →
      Offset.fromHms (a : Int) (b : Int) = .ok ⟨(a : Int), (b : Int)⟩ := by
    intro a b ha hb
    unfold Offset.fromHms
    rw [if_pos (by simp; omega)]
  have hfrn : ∀ a b : Nat, a ≤ 25 → b ≤ 59 →
      Offset.fromHms (-(a : Int)) (-(b : Int)) = .ok ⟨-(a : Int), -(b : Int)⟩ := by
    intro a b ha hb
    unfold Offset.fromHms
    rw [if_pos (by simp; omega)]
  rcases hs with hs | ⟨hs, hne⟩
  · unfold ParseState.timezoneAfterSign
    rw [parseNat22_two_digits _ d1 d2 (':' :: d3 :: d4 :: rest) (by simp [hs]) h1 h1' h2 h2']
    dsimp only
    rw [if_pos (by simp [ParseState.peekByte])]
    rw [parseNat22_two_digits _ d3 d4 rest (by simp) h3 h3' h4 h4']
    dsimp only
    rw [← hhv, ← hmv]
    cases negate
    · simp [hfr hv mv (by omega) hm]
    · simp [hfrn hv mv (by omega) hm]
  · unfold ParseState.timezoneAfterSign
    rw [parseNat22_two_digits _ d1 d2 (d3 :: d4 :: rest) (by simp [hs]) h1 h1' h2 h2']
    dsimp only
    rw [if_neg (by simp [ParseState.peekByte]; intro hcc; exact hne hcc)]
    rw [parseNat22_two_digits _ d3 d4 rest (by simp) h3 h3' h4 h4']
    dsimp only
    rw [← hhv, ← hmv]
    cases negate
    · simp [hfr hv mv (by omega) hm]
    · simp [hfrn hv mv (by omega) hm]

/-- C6: `%z` recovery accepts exactly a literal `Z` (UTC) or a sign, two
digits, an optional `:` and two digits (yielding the signed offset), failing
on any other leading byte and on too few digits; `recover("%z", "-0123")`
yields offset -1:23 while `"+2:34"` and `"+234"` fail, and rendering `%z`
for offset -1:23 produces `"-0123"`. -/
theorem c6_timezone_offset_grammar :
    (∀ st : ParseState, st.s = [] →
        ParseState.timezone st = .error (.unexpectedEnd "+ or -")) ∧
    (∀ (st : ParseState) (rest : Str), st.s = 'Z' :: rest →
        ParseState.timezone st =
          .ok { st with s := rest, zone := some (.offset Offset.utc) }) ∧
    (∀ (st : ParseState) (c : Char) (rest : Str), st.s = c :: rest →
        c ≠ 'Z' → c ≠ '+' → c ≠ '-' →
        ParseState.timezone st = .error (.unexpectedByte "+ or -" c)) ∧
    (∀ (st : ParseState) (c : Char) (rest : Str), st.s = c :: rest →
        c = '+' ∨ c = '-' →
        ParseState.timezone st =
          ParseState.timezoneAfterSign { st with s := rest } (decide (c = '-'))) ∧
    (∀ (st : ParseState) (negate : Bool) (d1 d2 d3 d4 : Char) (rest : Str) (hv mv : Nat),
        (st.s = d1 :: d2 :: ':' :: d3 :: d4 :: rest ∨
         (st.s = d1 :: d2 :: d3 :: d4 :: rest ∧ d3 ≠ ':')) →
        '0' ≤ d1 → d1 ≤ '9' → '0' ≤ d2 → d2 ≤ '9' →
        '0' ≤ d3 → d3 ≤ '9' → '0' ≤ d4 → d4 ≤ '9' →
        hv = (d1.toNat - 48) * 10 + (d2.toNat - 48) →
        mv = (d3.toNat - 48) * 10 + (d4.toNat - 48) →
        hv ≤ 23 → mv ≤ 59 →
        ParseState.timezoneAfterSign st negate =
          .ok { st with
                s := rest,
                zone := some (.offset (if negate then ⟨-(hv : Int), -(mv : Int)⟩
                                       else ⟨(hv : Int), (mv : Int)⟩)) }) ∧
    format_offset_date_time (str "%z") ⟨⟨2022, 33⟩, ⟨1, 1, 1, 0⟩⟩ ⟨-1, -23⟩ =
        .ok (str "-0123") ∧
    parse_date_time_maybe_with_zone (str "%z") (str "-0123") =
        .ok (⟨⟨1900, 1⟩, ⟨0, 0, 0, 0⟩⟩, some (.offset ⟨-1, -23⟩)) ∧
    parse_date_time_maybe_with_zone (str "%z") (str "+2:34") =
        .error (.unexpectedByte "digits" ':') ∧
    parse_date_time_maybe_with_zone (str "%z") (str "+234") =
        .error (.unexpectedEnd "digits") := by
  refine ⟨?_, ?_, ?_, ?_, timezoneAfterSign_spec, by decide, by decide, by decide, by decide⟩
  · intro st he
    unfold ParseState.timezone ParseState.peekByte
    rw [he]
    rfl
  · intro st rest hs
    unfold ParseState.timezone ParseState.peekByte
    rw [hs]
    dsimp only [List.head?]
    rw [if_pos rfl]
    rfl
  · intro st c rest hs hZ hp hm
    unfold ParseState.timezone ParseState.peekByte
    rw [hs]
    dsimp only [List.head?]
    rw [if_neg hZ, if_neg (by simp [hp, hm])]
  · intro st c rest hs hc
    unfold ParseState.timezone ParseState.peekByte
    rw [hs]
    dsimp only [List.head?]
    rcases hc with rfl | rfl
    · rw [if_neg (by decide), if_pos (by decide)]
      rfl
    · rw [if_neg (by decide), if_pos (by decide)]
      rfl

/-- Witness for C6 at input `"0123"` after a `-` sign: the offset -1:23 is
stored and the input fully consumed. -/
theorem c6_witness :
    ParseState.timezoneAfterSign
        ⟨str "0123", .unspecified, .unspecified, .unspecified, 0, 0, 0, none⟩ true =
      .ok ⟨[], .unspecified, .unspecified, .unspecified, 0, 0, 0,
           some (.offset ⟨-1, -23⟩)⟩ := by
  have h := c6_timezone_offset_grammar.2.2.2.2.1
      ⟨str "0123", .unspecified, .unspecified, .unspecified, 0, 0, 0, none⟩ true
      '0' '1' '2' '3' [] 1 23 (Or.inr ⟨rfl, by decide⟩)
      (by decide) (by decide) (by decide) (by decide) (by decide) (by decide)
      (by decide) (by decide) (by decide) (by decide) (by decide) (by decide)
  simpa using h

/-- Padding a text on the left yields the maximum of the width and its
length. -/
theorem padLeft_length (c : Char) (w : Nat) (s : Str) :
    (padLeft c w s).length = max w s.length := by
  simp [padLeft]
  omega

/-- The decimal text of a natural number is never empty. -/
theorem natRepr_length_pos (n : Nat) : 1 ≤ (natRepr n).length := by
  unfold natRepr
  split_ifs with h
  · simp
  · simp only [List.length_map]
    cases n with
    | zero => exact absurd rfl h
    | succ m =>
      unfold natDigitsAux
      rw [if_neg (Nat.succ_ne_zero m)]
      simp

/-- C7: `%C` renders the floor division (equal to the Euclidean quotient that
the code computes, the divisor 100 being positive) of the year by 100,
zero-padded to at least two characters with no upper bound — year 410 gives
`"04"`, -1 gives `"-1"`, -1000 gives `"-10"` — and `%y` renders the year's
absolute value modulo 100 zero-padded to exactly two digits. -/
theorem c7_century_floor_division :
    (∀ st : FmtState, FmtState.year_prefix st =
        .ok (st.wr (padIntZero 2 (Int.fdiv st.date.year 100)))) ∧
    (∀ y : Int, 2 ≤ (padIntZero 2 y).length) ∧
    format_date_time (str "%C") ⟨⟨410, 1⟩, ⟨1, 1, 1, 0⟩⟩ = .ok (str "04") ∧
    format_date_time (str "%C") ⟨⟨-1, 1⟩, ⟨1, 1, 1, 0⟩⟩ = .ok (str "-1") ∧
    format_date_time (str "%C") ⟨⟨-1000, 1⟩, ⟨1, 1, 1, 0⟩⟩ = .ok (str "-10") ∧
    (∀ st : FmtState, FmtState.year_suffix st =
        .ok (st.wr (padNatZero 2 (st.date.year.natAbs % 100)))) ∧
    (∀ y : Int, (padNatZero 2 (y.natAbs % 100)).length = 2) := by
  refine ⟨?_, ?_, by decide, by decide, by decide, fun st => rfl, ?_⟩
  · intro st
    unfold FmtState.year_prefix
    rw [show Int.fdiv st.date.year 100 = Int.ediv st.date.year 100 from
      Int.fdiv_eq_ediv _ (by norm_num)]
  · intro y
    unfold padIntZero
    split_ifs with h
    · simp only [List.length_cons, padLeft_length]
      have := natRepr_length_pos y.natAbs
      omega
    · rw [padLeft_length]
      have := natRepr_length_pos y.natAbs
      omega
  · intro y
    unfold padNatZero
    rw [padLeft_length]
    have h1 := natRepr_length_pos (y.natAbs % 100)
    have h2 : (natRepr (y.natAbs % 100)).length ≤ 2 := by
      have : y.natAbs % 100 < 100 := Nat.mod_lt _ (by norm_num)
      interval_cases h : (y.natAbs % 100) <;> decide
    omega

/-- A matched weekday name only consumes input, leaving the accumulator
untouched. -/
theorem dayOfWeekNameLoop_frame (ws : List Nat) (st st' : ParseState)
    (h : dayOfWeekNameLoop ws st = .ok st') : accumUnchanged st st' := by
  induction ws generalizing st with
  | nil => simp [dayOfWeekNameLoop] at h
  | cons w ws ih =>
    unfold dayOfWeekNameLoop at h
    dsimp only at h
    split_ifs at h with h1 h2
    · simp only [Except.ok.injEq] at h
      rw [← h]
      exact ⟨rfl, rfl, rfl, rfl, rfl, rfl, rfl⟩
    · simp only [Except.ok.injEq] at h
      rw [← h]
      exact ⟨rfl, rfl, rfl, rfl, rfl, rfl, rfl⟩
    · exact ih st h

/-- C9: the weekday-name, numeric-weekday and week-number specifiers consume
and range-check input but leave every accumulator field (year, day, hour,
minute, second, nanosecond, zone) unchanged, so the recovered date-time does
not depend on what they matched. -/
theorem c9_weekday_week_specifiers_frame :
    (∀ st st' : ParseState, ParseState.day_of_week_name st = .ok st' →
        accumUnchanged st st') ∧
    (∀ st st' : ParseState,
        ParseState.week_number_of_current_year_start_sunday st = .ok st' →
        accumUnchanged st st') ∧
    (∀ st st' : ParseState, ParseState.day_of_week_from_sunday_as_0 st = .ok st' →
        accumUnchanged st st') ∧
    (∀ st st' : ParseState,
        ParseState.week_number_of_current_year_start_monday st = .ok st' →
        accumUnchanged st st') := by
  have hnum : ∀ (st st1 : ParseState) (a b v : Nat), st.parseNat a b = .ok (v, st1) →
      accumUnchanged st st1 := by
    intro st st1 a b v hp
    have h1 := ParseState.parseNat_state st a b v st1 hp
    rw [h1]
    exact ⟨rfl, rfl, rfl, rfl, rfl, rfl, rfl⟩
  refine ⟨?_, ?_, ?_, ?_⟩
  · intro st st' h
    exact dayOfWeekNameLoop_frame _ st st' h
  · intro st st' h
    unfold ParseState.week_number_of_current_year_start_sunday at h
    cases hpi : st.parseNat 1 2 with
    | error e => rw [hpi] at h; simp at h
    | ok pr =>
      obtain ⟨v, st1⟩ := pr
      rw [hpi] at h
      dsimp only at h
      split_ifs at h
      simp only [Except.ok.injEq] at h
      rw [← h]
      exact hnum st st1 1 2 v hpi
  · intro st st' h
    unfold ParseState.day_of_week_from_sunday_as_0 at h
    cases hpi : st.parseNat 1 1 with
    | error e => rw [hpi] at h; simp at h
    | ok pr =>
      obtain ⟨v, st1⟩ := pr
      rw [hpi] at h
      dsimp only at h
      split_ifs at h
      simp only [Except.ok.injEq] at h
      rw [← h]
      exact hnum st st1 1 1 v hpi
  · intro st st' h
    unfold ParseState.week_number_of_current_year_start_monday at h
    cases hpi : st.parseNat 1 2 with
    | error e => rw [hpi] at h; simp at h
    | ok pr =>
      obtain ⟨v, st1⟩ := pr
      rw [hpi] at h
      dsimp only at h
      split_ifs at h
      simp only [Except.ok.injEq] at h
      rw [← h]
      exact hnum st st1 1 2 v hpi

/-- Witness for C9: matching the weekday name `"Wednesday"` consumes it and
leaves every accumulator field unchanged. -/
theorem c9_witness :
    ParseState.day_of_week_name
        ⟨str "Wednesday!", .year 7, .dayOfYear 8, .fullDay 9, 1, 2, 3,
         some (.name (str "JST"))⟩ =
      .ok ⟨str "!", .year 7, .dayOfYear 8, .fullDay 9, 1, 2, 3,
           some (.name (str "JST"))⟩ ∧
    accumUnchanged
      ⟨str "Wednesday!", .year 7, .dayOfYear 8, .fullDay 9, 1, 2, 3,
       some (.name (str "JST"))⟩
      ⟨str "!", .year 7, .dayOfYear 8, .fullDay 9, 1, 2, 3,
       some (.name (str "JST"))⟩ :=
  ⟨by decide, c9_weekday_week_specifiers_frame.1 _ _ (by decide)⟩

/-- Taking up to the first index satisfying `p` is taking while `p` fails. -/
theorem take_findIdx_eq_takeWhile (p : Char → Bool) (l : Str) :
    l.take (l.findIdx p) = l.takeWhile (fun a => !p a) := by
  induction l with
  | nil => rfl
  | cons a l ih =>
    simp only [List.findIdx_cons, List.takeWhile]
    by_cases h : p a <;> simp [h, ih]

/-- Dropping up to the first index satisfying `p` is dropping while `p`
fails. -/
theorem drop_findIdx_eq_dropWhile (p : Char → Bool) (l : Str) :
    l.drop (l.findIdx p) = l.dropWhile (fun a => !p a) := by
  induction l with
  | nil => rfl
  | cons a l ih =>
    simp only [List.findIdx_cons, List.dropWhile]
    by_cases h : p a <;> simp [h, ih]

/-- C10: `%Z` recovery never fails: it always consumes the maximal (possibly
empty) run of non-whitespace characters and stores it as the zone name, so
an empty input or one starting with whitespace yields the empty zone name
rather than an error. -/
theorem c10_timezone_name_total :
    (∀ st : ParseState, ParseState.timezone_name st =
        .ok { st with
              zone := some (.name (st.s.takeWhile fun c => !rustIsWhitespace c)),
              s := st.s.dropWhile fun c => !rustIsWhitespace c }) ∧
    (∀ st : ParseState,
        (st.s = [] ∨ ∃ c rest, st.s = c :: rest ∧ rustIsWhitespace c = true) →
        ∃ st', ParseState.timezone_name st = .ok st' ∧
          st'.zone = some (.name []) ∧ st'.s = st.s) := by
  have hmain : ∀ st : ParseState, ParseState.timezone_name st =
      .ok { st with
            zone := some (.name (st.s.takeWhile fun c => !rustIsWhitespace c)),
            s := st.s.dropWhile fun c => !rustIsWhitespace c } := by
    intro st
    unfold ParseState.timezone_name ParseState.getUntilWhitespace
    dsimp only
    rw [take_findIdx_eq_takeWhile, drop_findIdx_eq_dropWhile]
  refine ⟨hmain, ?_⟩
  intro st hws
  refine ⟨_, hmain st, ?_, ?_⟩
  · rcases hws with he | ⟨c, rest, hc, hwc⟩
    · simp [he]
    · simp [hc, List.takeWhile, hwc]
  · rcases hws with he | ⟨c, rest, hc, hwc⟩
    · simp [he]
    · simp [hc, List.dropWhile, hwc]

/-- Witness for C10 on input `" UTC"` (leading whitespace): the zone name is
stored as the empty string and nothing is consumed. -/
theorem c10_witness :
    ∃ st', ParseState.timezone_name
        ⟨str " UTC", .unspecified, .unspecified, .unspecified, 0, 0, 0, none⟩ = .ok st' ∧
      st'.zone = some (.name []) ∧ st'.s = str " UTC" :=
  c10_timezone_name_total.2
    ⟨str " UTC", .unspecified, .unspecified, .unspecified, 0, 0, 0, none⟩
    (Or.inr ⟨' ', str "UTC", rfl, by decide⟩)

theorem dropWhile_length_le (p : Char → Bool) (l : List Char) :
    (l.dropWhile p).length ≤ l.length := by
  induction l with
  | nil => simp
  | cons a l ih =>
    rw [List.dropWhile_cons]
    split_ifs
    · exact ih.trans (by simp)
    · simp

theorem pdispatch_compile_ok (b : Char) (hb : precognized b = true)
    (hC : b ≠ 'C') (hZ : b ≠ 'Z') (st : CompileState) :
    ∃ st', pdispatch compileCollector b st = .ok st' := by
  simp only [precognized, List.mem_cons, List.not_mem_nil, or_false,
    decide_eq_true_eq] at hb
  rcases hb with rfl | rfl | rfl | rfl | rfl | rfl | rfl | rfl | rfl | rfl | rfl | rfl |
    rfl | rfl | rfl | rfl | rfl | rfl | rfl | rfl | rfl | rfl | rfl | rfl | rfl | rfl |
    rfl | rfl | rfl | rfl | rfl | rfl | rfl | rfl | rfl | rfl | rfl
  all_goals first
    | exact absurd rfl hC
    | exact absurd rfl hZ
    | exact ⟨_, rfl⟩

theorem pwalkF_percent_step (fuel : Nat) (b : Char) (rest' : Str) (st : CompileState) :
    pwalkF compileCollector (fuel + 1) ('%' :: b :: rest') st =
      (if precognized b = true then
        match pdispatch compileCollector b st with
        | .error e => .error e
        | .ok st2 => pwalkF compileCollector fuel rest' st2
      else
        match compileCollector.unknown b st with
        | .error e => .error e
        | .ok st2 => pwalkF compileCollector fuel rest' st2) := by
  rw [pwalkF]
  simp only [List.findIdx_cons]
  norm_num [rustIsWhitespace]
  rw [if_neg (by decide)]
  split_ifs with h
  · cases pdispatch compileCollector b st <;> rfl
  · cases compileCollector.unknown b st <;> rfl

theorem firstBadF_ws_step (fuel : Nat) (c : Char) (rest : Str)
    (hw : rustIsWhitespace c = true) :
    firstBadF (fuel + 1) (c :: rest) =
      firstBadF fuel ((c :: rest).dropWhile rustIsWhitespace) := by
  rw [firstBadF.eq_def]
  simp [List.findIdx_cons, hw]

theorem mentionsCZF_ws_step (fuel : Nat) (c : Char) (rest : Str)
    (hw : rustIsWhitespace c = true) :
    mentionsCZF (fuel + 1) (c :: rest) =
      mentionsCZF fuel ((c :: rest).dropWhile rustIsWhitespace) := by
  rw [mentionsCZF.eq_def]
  simp [List.findIdx_cons, hw]

theorem allRecognizedF_ws_step (fuel : Nat) (c : Char) (rest : Str)
    (hw : rustIsWhitespace c = true) :
    allRecognizedF (fuel + 1) (c :: rest) =
      allRecognizedF fuel ((c :: rest).dropWhile rustIsWhitespace) := by
  rw [allRecognizedF.eq_def]
  simp [List.findIdx_cons, hw]

theorem pwalkF_ws_step (fuel : Nat) (c : Char) (rest : Str)
    (hw : rustIsWhitespace c = true) (st : CompileState) :
    pwalkF compileCollector (fuel + 1) (c :: rest) st =
      pwalkF compileCollector fuel ((c :: rest).dropWhile rustIsWhitespace)
        (st.push (.optionalItem (.first
          [.literal (str " "), .literal (str "\n"), .literal (str "\t")]))) := by
  cases rest with
  | nil =>
    rw [pwalkF]
    simp [List.findIdx_cons, hw]
    rfl
  | cons b rest' =>
    rw [pwalkF]
    simp [List.findIdx_cons, hw]
    rfl

theorem firstBadF_lit_step (fuel : Nat) (c : Char) (rest : Str)
    (hp : c ≠ '%') (hw : rustIsWhitespace c = false) :
    firstBadF (fuel + 1) (c :: rest) =
      firstBadF fuel (rest.drop (rest.findIdx fun ch => ch = '%' || rustIsWhitespace ch)) := by
  rw [firstBadF.eq_def]
  simp [List.findIdx_cons, hp, hw]

theorem mentionsCZF_lit_step (fuel : Nat) (c : Char) (rest : Str)
    (hp : c ≠ '%') (hw : rustIsWhitespace c = false) :
    mentionsCZF (fuel + 1) (c :: rest) =
      mentionsCZF fuel (rest.drop (rest.findIdx fun ch => ch = '%' || rustIsWhitespace ch)) := by
  rw [mentionsCZF.eq_def]
  simp [List.findIdx_cons, hp, hw]

theorem allRecognizedF_lit_step (fuel : Nat) (c : Char) (rest : Str)
    (hp : c ≠ '%') (hw : rustIsWhitespace c = false) :
    allRecognizedF (fuel + 1) (c :: rest) =
      allRecognizedF fuel (rest.drop (rest.findIdx fun ch => ch = '%' || rustIsWhitespace ch)) := by
  rw [allRecognizedF.eq_def]
  simp [List.findIdx_cons, hp, hw]

theorem pwalkF_lit_step (fuel : Nat) (c : Char) (rest : Str)
    (hp : c ≠ '%') (hw : rustIsWhitespace c = false) (st : CompileState) :
    pwalkF compileCollector (fuel + 1) (c :: rest) st =
      pwalkF compileCollector fuel
        (rest.drop (rest.findIdx fun ch => ch = '%' || rustIsWhitespace ch))
        (st.push (.literal ((c :: rest).take
          ((rest.findIdx fun ch => ch = '%' || rustIsWhitespace ch) + 1)))) := by
  cases rest with
  | nil =>
    rw [pwalkF]
    simp [List.findIdx_cons, hp, hw]
    rfl
  | cons b rest' =>
    rw [pwalkF]
    simp [List.findIdx_cons, hp, hw]
    rfl

theorem compile_walk_scan (fuel : Nat) :
    ∀ fmt : Str, fmt.length < fuel →
      ((firstBadF fuel fmt = none →
          ∀ st : CompileState, ∃ st', pwalkF compileCollector fuel fmt st = .ok st') ∧
       (∀ ch, firstBadF fuel fmt = some ch →
          ∀ st : CompileState, pwalkF compileCollector fuel fmt st = .error (badErr ch)) ∧
       (mentionsCZF fuel fmt = true → allRecognizedF fuel fmt = true →
          ∃ ch, firstBadF fuel fmt = some ch ∧ (ch = 'C' ∨ ch = 'Z')) ∧
       (mentionsCZF fuel fmt = true → firstBadF fuel fmt ≠ none) ∧
       (mentionsCZF fuel fmt = false →
          ∀ ch, firstBadF fuel fmt = some ch → ch ≠ 'C' ∧ ch ≠ 'Z')) := by
  induction fuel with
  | zero => intro fmt h; exact absurd h (by omega)
  | succ fuel ih =>
    intro fmt hlen
    cases fmt with
    | nil =>
      refine ⟨fun _ st => ⟨st, rfl⟩, ?_, ?_, ?_, ?_⟩
      · intro ch h; exact Option.noConfusion h
      · intro hm; exact Bool.noConfusion hm
      · intro hm; exact Bool.noConfusion hm
      · intro _ ch h; exact Option.noConfusion h
    | cons c rest =>
      by_cases hc : c = '%'
      · subst hc
        cases rest with
        | nil =>
          refine ⟨fun _ st => ⟨_, rfl⟩, ?_, ?_, ?_, ?_⟩
          · intro ch h; exact Option.noConfusion h
          · intro hm; exact Bool.noConfusion hm
          · intro hm; exact Bool.noConfusion hm
          · intro _ ch h; exact Option.noConfusion h
        | cons b rest' =>
          have hfb : firstBadF (fuel + 1) ('%' :: b :: rest') =
              if (b = 'C' || b = 'Z' || !precognized b) = true then some b
              else firstBadF fuel rest' := rfl
          have hm : mentionsCZF (fuel + 1) ('%' :: b :: rest') =
              (b = 'C' || b = 'Z' || mentionsCZF fuel rest') := rfl
          have ha : allRecognizedF (fuel + 1) ('%' :: b :: rest') =
              (precognized b && allRecognizedF fuel rest') := rfl
          have hrl : rest'.length < fuel := by
            simp only [List.length_cons] at hlen; omega
          obtain ⟨ihA, ihB, ihC, ihD, ihE⟩ := ih rest' hrl
          by_cases hbC : b = 'C'
          · subst hbC
            have hfb' : firstBadF (fuel + 1) ('%' :: 'C' :: rest') = some 'C' := by
              rw [hfb]; simp
            have hpw : ∀ st : CompileState,
                pwalkF compileCollector (fuel + 1) ('%' :: 'C' :: rest') st =
                  .error (.noCorrespondingFormatItem "%C") := fun _ => rfl
            refine ⟨?_, ?_, ?_, ?_, ?_⟩
            · intro h; rw [hfb'] at h; exact Option.noConfusion h
            · intro ch h st
              rw [hfb'] at h
              obtain rfl : 'C' = ch := Option.some.inj h
              rw [hpw st]; rfl
            · intro _ _; exact ⟨'C', hfb', Or.inl rfl⟩
            · intro _; rw [hfb']; exact fun h => Option.noConfusion h
            · intro hmf
              rw [hm] at hmf; simp at hmf
          · by_cases hbZ : b = 'Z'
            · subst hbZ
              have hfb' : firstBadF (fuel + 1) ('%' :: 'Z' :: rest') = some 'Z' := by
                rw [hfb]; simp
              have hpw : ∀ st : CompileState,
                  pwalkF compileCollector (fuel + 1) ('%' :: 'Z' :: rest') st =
                    .error (.noCorrespondingFormatItem "timezone name") := fun _ => rfl
              refine ⟨?_, ?_, ?_, ?_, ?_⟩
              · intro h; rw [hfb'] at h; exact Option.noConfusion h
              · intro ch h st
                rw [hfb'] at h
                obtain rfl : 'Z' = ch := Option.some.inj h
                rw [hpw st]; rfl
              · intro _ _; exact ⟨'Z', hfb', Or.inr rfl⟩
              · intro _; rw [hfb']; exact fun h => Option.noConfusion h
              · intro hmf
                rw [hm] at hmf; simp at hmf
            · by_cases hbr : precognized b = true
              · have hcond : (b = 'C' || b = 'Z' || !precognized b) = false := by
                  simp [hbC, hbZ, hbr]
                have hfb' : firstBadF (fuel + 1) ('%' :: b :: rest') =
                    firstBadF fuel rest' := by rw [hfb, hcond]; simp
                have hm' : mentionsCZF (fuel + 1) ('%' :: b :: rest') =
                    mentionsCZF fuel rest' := by rw [hm]; simp [hbC, hbZ]
                have ha' : allRecognizedF (fuel + 1) ('%' :: b :: rest') =
                    allRecognizedF fuel rest' := by rw [ha]; simp [hbr]
                refine ⟨?_, ?_, ?_, ?_, ?_⟩
                · intro h st
                  rw [hfb'] at h
                  obtain ⟨st2, hok⟩ := pdispatch_compile_ok b hbr hbC hbZ st
                  obtain ⟨st3, h3⟩ := ihA h st2
                  refine ⟨st3, ?_⟩
                  rw [pwalkF_percent_step, if_pos hbr, hok]
                  exact h3
                · intro ch h st
                  rw [hfb'] at h
                  obtain ⟨st2, hok⟩ := pdispatch_compile_ok b hbr hbC hbZ st
                  rw [pwalkF_percent_step, if_pos hbr, hok]
                  exact ihB ch h st2
                · intro hmt hat
                  rw [hm'] at hmt; rw [ha'] at hat
                  obtain ⟨ch, h1, h2⟩ := ihC hmt hat
                  exact ⟨ch, by rw [hfb']; exact h1, h2⟩
                · intro hmt
                  rw [hm'] at hmt; rw [hfb']; exact ihD hmt
                · intro hmf ch h
                  rw [hm'] at hmf; rw [hfb'] at h; exact ihE hmf ch h
              · have hbF : precognized b = false := by
                  simpa using hbr
                have hfb' : firstBadF (fuel + 1) ('%' :: b :: rest') = some b := by
                  rw [hfb]; simp [hbF]
                have hpw : ∀ st : CompileState,
                    pwalkF compileCollector (fuel + 1) ('%' :: b :: rest') st =
                      .error (.unknownSpecifier b) := by
                  intro st
                  rw [pwalkF_percent_step, hbF]
                  simp
                  rfl
                refine ⟨?_, ?_, ?_, ?_, ?_⟩
                · intro h; rw [hfb'] at h; exact Option.noConfusion h
                · intro ch h st
                  rw [hfb'] at h
                  obtain rfl : b = ch := Option.some.inj h
                  rw [hpw st]
                  unfold badErr
                  rw [if_neg hbC, if_neg hbZ]
                · intro _ hat
                  rw [ha] at hat
                  rw [hbF] at hat
                  exact Bool.noConfusion hat
                · intro _; rw [hfb']; exact fun h => Option.noConfusion h
                · intro hmf ch h
                  rw [hfb'] at h
                  obtain rfl : b = ch := Option.some.inj h
                  rw [hm] at hmf
                  simp at hmf
                  exact ⟨hmf.1.1, hmf.1.2⟩
      · by_cases hw : rustIsWhitespace c = true
        · have harg : ((c :: rest).dropWhile rustIsWhitespace).length < fuel := by
            have h1 : (c :: rest).dropWhile rustIsWhitespace =
                rest.dropWhile rustIsWhitespace := by
              rw [List.dropWhile_cons, if_pos hw]
            rw [h1]
            have h2 := dropWhile_length_le rustIsWhitespace rest
            simp only [List.length_cons] at hlen
            omega
          obtain ⟨ihA, ihB, ihC, ihD, ihE⟩ := ih _ harg
          refine ⟨?_, ?_, ?_, ?_, ?_⟩
          · intro h st
            rw [firstBadF_ws_step fuel c rest hw] at h
            obtain ⟨st3, h3⟩ := ihA h (st.push (.optionalItem (.first
              [.literal (str " "), .literal (str "\n"), .literal (str "\t")])))
            exact ⟨st3, by rw [pwalkF_ws_step fuel c rest hw st]; exact h3⟩
          · intro ch h st
            rw [firstBadF_ws_step fuel c rest hw] at h
            rw [pwalkF_ws_step fuel c rest hw st]
            exact ihB ch h _
          · intro hmt hat
            rw [mentionsCZF_ws_step fuel c rest hw] at hmt
            rw [allRecognizedF_ws_step fuel c rest hw] at hat
            obtain ⟨ch, h1, h2⟩ := ihC hmt hat
            exact ⟨ch, by rw [firstBadF_ws_step fuel c rest hw]; exact h1, h2⟩
          · intro hmt
            rw [mentionsCZF_ws_step fuel c rest hw] at hmt
            rw [firstBadF_ws_step fuel c rest hw]
            exact ihD hmt
          · intro hmf ch h
            rw [mentionsCZF_ws_step fuel c rest hw] at hmf
            rw [firstBadF_ws_step fuel c rest hw] at h
            exact ihE hmf ch h
        · have hwF : rustIsWhitespace c = false := by simpa using hw
          have harg : (rest.drop
              (rest.findIdx fun ch => ch = '%' || rustIsWhitespace ch)).length < fuel := by
            have h2 : (rest.drop
                (rest.findIdx fun ch => ch = '%' || rustIsWhitespace ch)).length ≤
                rest.length := by
              rw [List.length_drop]; omega
            simp only [List.length_cons] at hlen
            omega
          obtain ⟨ihA, ihB, ihC, ihD, ihE⟩ := ih _ harg
          refine ⟨?_, ?_, ?_, ?_, ?_⟩
          · intro h st
            rw [firstBadF_lit_step fuel c rest hc hwF] at h
            obtain ⟨st3, h3⟩ := ihA h (st.push (.literal ((c :: rest).take
              ((rest.findIdx fun ch => ch = '%' || rustIsWhitespace ch) + 1))))
            exact ⟨st3, by rw [pwalkF_lit_step fuel c rest hc hwF st]; exact h3⟩
          · intro ch h st
            rw [firstBadF_lit_step fuel c rest hc hwF] at h
            rw [pwalkF_lit_step fuel c rest hc hwF st]
            exact ihB ch h _
          · intro hmt hat
            rw [mentionsCZF_lit_step fuel c rest hc hwF] at hmt
            rw [allRecognizedF_lit_step fuel c rest hc hwF] at hat
            obtain ⟨ch, h1, h2⟩ := ihC hmt hat
            exact ⟨ch, by rw [firstBadF_lit_step fuel c rest hc hwF]; exact h1, h2⟩
          · intro hmt
            rw [mentionsCZF_lit_step fuel c rest hc hwF] at hmt
            rw [firstBadF_lit_step fuel c rest hc hwF]
            exact ihD hmt
          · intro hmf ch h
            rw [mentionsCZF_lit_step fuel c rest hc hwF] at hmf
            rw [firstBadF_lit_step fuel c rest hc hwF] at h
            exact ihE hmf ch h

theorem parse_to_format_item_eq (fmt : Str) :
    parse_to_format_item fmt =
      match pwalkF compileCollector (fmt.length + 1) fmt ⟨fmt, []⟩ with
      | .error e => .error e
      | .ok st => .ok st.items := by
  unfold parse_to_format_item parse_format_specifications
  cases pwalkF compileCollector (fmt.length + 1) fmt ⟨fmt, []⟩ <;> rfl

/-- C8 (amended): compiling a format to a reusable program rejects the first
specifier the token stream reaches that has no format-item equivalent: when
the format mentions `%C` or `%Z`, compilation never returns a program, and
when additionally every specifier is recognized, the error is the
no-corresponding-representation one; conversely a format free of `%C` and
`%Z` never produces that error. -/
theorem c8_compile_rejects_CZ (fmt : Str) :
    (mentionsCZ fmt = true → ∀ items, parse_to_format_item fmt ≠ .ok items) ∧
    (mentionsCZ fmt = true → allRecognized fmt = true →
       ∃ s, parse_to_format_item fmt = .error (.noCorrespondingFormatItem s)) ∧
    (mentionsCZ fmt = false →
       ∀ s, parse_to_format_item fmt ≠ .error (.noCorrespondingFormatItem s)) := by
  obtain ⟨sA, sB, sC, sD, sE⟩ := compile_walk_scan (fmt.length + 1) fmt (by omega)
  have hpe := parse_to_format_item_eq fmt
  cases hfb : firstBadF (fmt.length + 1) fmt with
  | none =>
    obtain ⟨st', hok⟩ := sA hfb ⟨fmt, []⟩
    rw [hok] at hpe
    refine ⟨?_, ?_, ?_⟩
    · intro hmt
      exact absurd hfb (sD hmt)
    · intro hmt _
      exact absurd hfb (sD hmt)
    · intro _ s h
      rw [hpe] at h
      exact Except.noConfusion h
  | some ch =>
    have herr := sB ch hfb ⟨fmt, []⟩
    rw [herr] at hpe
    refine ⟨?_, ?_, ?_⟩
    · intro _ items h
      rw [hpe] at h
      exact Except.noConfusion h
    · intro hmt hat
      obtain ⟨ch', h1, h2⟩ := sC hmt hat
      rw [hfb] at h1
      obtain rfl : ch = ch' := Option.some.inj h1
      rcases h2 with rfl | rfl
      · exact ⟨"%C", hpe⟩
      · exact ⟨"timezone name", hpe⟩
    · intro hmf s h
      obtain ⟨h1, h2⟩ := sE hmf ch hfb
      rw [hpe] at h
      have h3 : badErr ch = .noCorrespondingFormatItem s := Except.error.inj h
      unfold badErr at h3
      rw [if_neg h1, if_neg h2] at h3
      exact CompileError.noConfusion h3

/-- C8 (counterexample to the original wording): `"%q%C"` contains the
specifier `%C`, yet compiling it returns the unknown-specifier error for
`%q`, not the no-corresponding-representation error the claim promises for
every format containing `%C` or `%Z`. -/
theorem c8_counterexample :
    mentionsCZ (str "%q%C") = true ∧
    parse_to_format_item (str "%q%C") = .error (.unknownSpecifier 'q') ∧
    (Except.error (.unknownSpecifier 'q') :
        Except CompileError (List FormatItem)) ≠
      .error (.noCorrespondingFormatItem "%C") :=
  ⟨by decide, rfl, fun h => by
    have := Except.error.inj h
    exact CompileError.noConfusion this⟩

/-- C8 witness: the format `"%C"` mentions `%C` with every specifier
recognized, and compiling it indeed yields the
no-corresponding-representation error. -/
theorem c8_witness :
    mentionsCZ (str "%C") = true ∧ allRecognized (str "%C") = true ∧
    ∃ s, parse_to_format_item (str "%C") = .error (.noCorrespondingFormatItem s) :=
  ⟨by decide, by decide,
    (c8_compile_rejects_CZ (str "%C")).2.1 (by decide) (by decide)⟩

theorem natDigitsAux_eq (fuel : Nat) : ∀ n : Nat, n ≤ fuel →
    natDigitsAux fuel n = (Nat.digits 10 n).reverse := by
  induction fuel with
  | zero =>
    intro n h
    interval_cases n
    simp [natDigitsAux]
  | succ fuel ih =>
    intro n h
    rw [natDigitsAux]
    by_cases hn : n = 0
    · subst hn; simp
    · rw [if_neg hn]
      rw [ih (n / 10) (by omega)]
      rw [Nat.digits_def' (by norm_num : (1:Nat) < 10) (Nat.pos_of_ne_zero hn)]
      simp

theorem natRepr_eq_digits (n : Nat) (hn : n ≠ 0) :
    natRepr n = ((Nat.digits 10 n).reverse).map digitChar := by
  rw [natRepr, if_neg hn, natDigitsAux_eq n n le_rfl]

theorem natRepr_length_log (n : Nat) (hn : n ≠ 0) :
    (natRepr n).length = Nat.log 10 n + 1 := by
  rw [natRepr_eq_digits n hn]
  simp [Nat.digits_len 10 n (by norm_num) hn]

theorem natRepr_length_le9 (n : Nat) (h : n ≤ 999999999) :
    (natRepr n).length ≤ 9 := by
  by_cases hn : n = 0
  · subst hn; simp [natRepr]
  · rw [natRepr_length_log n hn]
    have h9 : n < 10 ^ 9 := by norm_num; omega
    have := (Nat.lt_pow_iff_log_lt (by norm_num : (1:Nat) < 10) hn).mp h9
    omega

theorem digitChar_ne_zero (d : Nat) (h1 : d ≠ 0) (h2 : d ≤ 9) :
    digitChar d ≠ '0' := by
  interval_cases d
  all_goals first
    | exact absurd rfl h1
    | decide

theorem natRepr_pow_mul (t m : Nat) (hm : 0 < m) :
    natRepr (10 ^ t * m) = natRepr m ++ List.replicate t '0' := by
  have hne : 10 ^ t * m ≠ 0 := by positivity
  have h0 : digitChar 0 = '0' := rfl
  rw [natRepr_eq_digits _ hne, natRepr_eq_digits m (by omega)]
  rw [Nat.digits_base_pow_mul (by norm_num : (1:Nat) < 10) hm]
  simp [h0]

set_option maxHeartbeats 1600000 in
theorem keepDigits_pow_mul (t m : Nat) (ht : t ≤ 8) (hm : m % 10 ≠ 0) :
    keepDigits (10 ^ t * m) = 9 - t := by
  rcases t with _|_|_|_|_|_|_|_|_|t
  all_goals first
    | (exfalso; omega)
    | (norm_num [keepDigits]; split_ifs <;> omega)

theorem dropWhile_replicate_append (t : Nat) (c : Char) (l : List Char) :
    ((List.replicate t c ++ l).dropWhile fun x => x = c) =
      l.dropWhile fun x => x = c := by
  induction t with
  | zero => rfl
  | succ t ih => simp [List.replicate_succ, List.dropWhile_cons, ih]

theorem stripTrailingZeros_pow_mul (t m : Nat) (hm : m % 10 ≠ 0) (hm0 : 0 < m) :
    stripTrailingZeros (natRepr (10 ^ t * m)) = natRepr m := by
  have hrev : (natRepr m).reverse =
      digitChar (m % 10) :: ((Nat.digits 10 (m / 10)).map digitChar) := by
    rw [natRepr_eq_digits m (by omega)]
    rw [Nat.digits_def' (by norm_num : (1:Nat) < 10) hm0]
    simp
  have hne : digitChar (m % 10) ≠ '0' :=
    digitChar_ne_zero (m % 10) hm (by omega)
  have hdw : ((natRepr m).reverse.dropWhile fun x => x = '0') =
      (natRepr m).reverse := by
    rw [hrev, List.dropWhile_cons, if_neg (by simpa using hne)]
  have hnn : natRepr m ≠ [] := by
    have := natRepr_length_pos m
    intro h
    rw [h] at this
    simp at this
  rw [natRepr_pow_mul t m hm0]
  unfold stripTrailingZeros
  dsimp only
  rw [List.reverse_append, List.reverse_replicate, dropWhile_replicate_append,
    hdw, List.reverse_reverse, if_neg hnn]

theorem renderNano_nine_digit (ns : Nat) (h8 : 100000000 ≤ ns) (h9 : ns ≤ 999999999) :
    renderNano ns = stripTrailingZeros (natRepr ns) := by
  have hne : ns ≠ 0 := by omega
  obtain ⟨t, m, hnd, heq⟩ := Nat.exists_eq_pow_mul_and_not_dvd hne 10 (by norm_num)
  have hm : m % 10 ≠ 0 := fun h => hnd (Nat.dvd_of_mod_eq_zero h)
  have hm0 : 0 < m := by
    rcases Nat.eq_zero_or_pos m with h | h
    · rw [h, Nat.mul_zero] at heq; exact absurd heq hne
    · exact h
  have ht : t ≤ 8 := by
    by_contra hgt
    push_neg at hgt
    have h1 : (10:Nat) ^ 9 ≤ 10 ^ t := Nat.pow_le_pow_right (by norm_num) (by omega)
    have h2 : (10:Nat) ^ t ≤ 10 ^ t * m := Nat.le_mul_of_pos_right _ hm0
    have h3 : (10:Nat) ^ 9 = 1000000000 := by norm_num
    omega
  have hlog : Nat.log 10 ns = 8 :=
    Nat.log_eq_of_pow_le_of_lt_pow (by norm_num; omega) (by norm_num; omega)
  have hlen : (natRepr ns).length = 9 := by
    rw [natRepr_length_log ns hne, hlog]
  have hkd : keepDigits ns = 9 - t := by
    rw [heq]; exact keepDigits_pow_mul t m ht hm
  have hnr : natRepr ns = natRepr m ++ List.replicate t '0' := by
    rw [heq]; exact natRepr_pow_mul t m hm0
  have hlm : (natRepr m).length = 9 - t := by
    have h4 := hlen
    rw [hnr] at h4
    simp at h4
    omega
  unfold renderNano
  dsimp only
  rw [if_pos hlen, hkd, hnr, ← hlm, List.take_left]
  rw [← natRepr_pow_mul t m hm0, stripTrailingZeros_pow_mul t m hm hm0]
  unfold padLeft
  simp

theorem renderNano_last_digit (ns : Nat) (h9 : ns ≤ 999999999) (hm : ns % 10 ≠ 0) :
    renderNano ns = padNatZero 9 ns := by
  have hkd : keepDigits ns = 9 := by unfold keepDigits; rw [if_pos hm]
  have hlen : (natRepr ns).length ≤ 9 := natRepr_length_le9 ns h9
  unfold renderNano padNatZero
  dsimp only
  rw [hkd, List.take_of_length_le hlen]
  by_cases h : (natRepr ns).length = 9
  · rw [if_pos h]
    simp [padLeft, h]
  · rw [if_neg h]

/-- C2 (amended): rendering `%f` always succeeds and writes `renderNano` of
the nanosecond; the claimed trailing-zero stripping holds exactly for
nine-digit nanosecond values (at least `10^8`), while a nanosecond whose last
digit is non-zero is written zero-padded to nine digits unstripped; the
calibration points 900000000 → `"9"`, 987654320 → `"98765432"`,
2 → `"000000002"` hold, but an exactly-zero nanosecond renders as
`"000000000"`, not the claimed `"0"`. -/
theorem c2_nanosecond_strip (dt : PrimDateTime) (ns : Nat) :
    format_date_time (str "%f") dt = .ok (renderNano dt.time.nanosecond) ∧
    (100000000 ≤ ns → ns ≤ 999999999 →
      renderNano ns = stripTrailingZeros (natRepr ns)) ∧
    (ns ≤ 999999999 → ns % 10 ≠ 0 → renderNano ns = padNatZero 9 ns) ∧
    renderNano 900000000 = str "9" ∧
    renderNano 987654320 = str "98765432" ∧
    renderNano 2 = str "000000002" ∧
    renderNano 0 = str "000000000" :=
  ⟨rfl, renderNano_nine_digit ns, renderNano_last_digit ns,
    by decide, by decide, by decide, by decide⟩

/-- C2 (counterexample to the original wording): a zero nanosecond renders
as `"000000000"`, not `"0"`, and nanosecond 20 renders as `"000000020"`, not
the `"00000002"` that stripping the trailing zeros of the nine-digit field
would give. -/
theorem c2_counterexample :
    format_date_time (str "%f") ⟨⟨2022, 1⟩, ⟨0, 0, 0, 0⟩⟩ = .ok (str "000000000") ∧
    str "000000000" ≠ str "0" ∧
    format_date_time (str "%f") ⟨⟨2022, 1⟩, ⟨0, 0, 0, 20⟩⟩ = .ok (str "000000020") ∧
    stripTrailingZeros (padNatZero 9 20) = str "00000002" ∧
    str "000000020" ≠ str "00000002" :=
  ⟨by decide, by decide, by decide, by decide, by decide⟩

/-- C2 witness: the amended theorem applied at nanoseconds 987654320 (strip
rule for a nine-digit value) and 7 (zero-padding rule). -/
theorem c2_witness :
    ((100000000 ≤ 987654320 ∧ 987654320 ≤ 999999999) ∧
      renderNano 987654320 = stripTrailingZeros (natRepr 987654320)) ∧
    ((7 ≤ 999999999 ∧ 7 % 10 ≠ 0) ∧ renderNano 7 = padNatZero 9 7) :=
  ⟨⟨⟨by norm_num, by norm_num⟩,
    (c2_nanosecond_strip ⟨⟨2022, 1⟩, ⟨0, 0, 0, 0⟩⟩ 987654320).2.1
      (by norm_num) (by norm_num)⟩,
   ⟨⟨by norm_num, by norm_num⟩,
    (c2_nanosecond_strip ⟨⟨2022, 1⟩, ⟨0, 0, 0, 0⟩⟩ 7).2.2.1
      (by norm_num) (by norm_num)⟩⟩
